import Mathlib

/-!
Verification of the iPort SM Buttons device-session core (`src/index.js`).

The JavaScript source is embedded shallowly:

* JS strings are modelled as `List Char`; the handful of string operations the
  code uses (`trim`, `padStart`, `substr`, `split`, `includes`, `parseInt`,
  `Number.toString`, `replace`) are given executable Lean counterparts with
  JS semantics.
* A JS number that may be `NaN` is modelled as `Option Int` (`none` = NaN).
* The mutable `IPortSMButtonsPlatform` instance is modelled as an explicit
  `PlatformState` record threaded through the handlers; outward side effects
  (socket writes, HomeKit characteristic updates, reachability notifications,
  scheduled timers, dispatched actions) are recorded in trace fields so the
  theorems can speak about them.
* The color math (`rgbToHsv` / `hsvToRgb`) is modelled over `ℚ`, the exact
  counterpart of the ideal real arithmetic the JS floating-point code
  approximates.
-/

namespace IPort

/-! ### JS string primitives over `List Char` -/

/-- The whitespace characters relevant to the wire protocol (JS `trim`,
`parseInt` prefix skipping and the `\s` class all treat these as blank). -/
def isWsChar (c : Char) : Bool :=
  c.toNat = 32 || c.toNat = 9 || c.toNat = 10 || c.toNat = 13

/-- Decimal digit test, as used by JS `parseInt(_, 10)` and the `\d` regex
class. -/
def isDigit10 (c : Char) : Bool :=
  48 ≤ c.toNat && c.toNat ≤ 57

/-- Numeric value of a list of decimal digit characters (most significant
first). -/
def digitsToNat (l : List Char) : Nat :=
  l.foldl (fun a c => a * 10 + (c.toNat - 48)) 0

/-- JS `parseInt(s, 10)`: skip leading whitespace, accept one optional sign,
read the longest prefix of decimal digits, ignore the rest; `NaN` (`none`)
when no digit was read. -/
def jsParseInt10 (s : List Char) : Option Int :=
  let t := s.dropWhile isWsChar
  let sign : Int := if t.head? = some '-' then -1 else 1
  let t2 := if t.head? = some '-' ∨ t.head? = some '+' then t.tail else t
  let ds := t2.takeWhile isDigit10
  if ds.isEmpty then none else some (sign * (digitsToNat ds : Int))

/-- JS `String.prototype.trim`. -/
def jsTrim (s : List Char) : List Char :=
  ((s.dropWhile isWsChar).reverse.dropWhile isWsChar).reverse

/-- JS `String.prototype.padStart(n, c)`. -/
def jsPadStart (n : Nat) (c : Char) (s : List Char) : List Char :=
  if n ≤ s.length then s else List.replicate (n - s.length) c ++ s

/-- JS `String.prototype.substr(start, len)` (for non-negative arguments). -/
def jsSubstr (s : List Char) (start len : Nat) : List Char :=
  (s.drop start).take len

/-- Split off the part of `s` before the first occurrence of `sep`, together
with the part after it; `none` when `sep` does not occur. -/
def splitOnce (sep : List Char) : List Char → Option (List Char × List Char)
  | [] => if sep.isEmpty then some ([], []) else none
  | c :: rest =>
      if sep.isPrefixOf (c :: rest) then some ([], (c :: rest).drop sep.length)
      else (splitOnce sep rest).map (fun p => (c :: p.1, p.2))

/-- Fuel-driven worker for `jsSplit`; the fuel bounds the number of
separator occurrences, so `s.length + 1` is always enough for a non-empty
separator. -/
def jsSplitAux (sep : List Char) : Nat → List Char → List (List Char)
  | 0, s => [s]
  | fuel + 1, s =>
      match splitOnce sep s with
      | none => [s]
      | some (pre, suf) => pre :: jsSplitAux sep fuel suf

/-- JS `String.prototype.split(sep)` for a non-empty separator. -/
def jsSplit (sep s : List Char) : List (List Char) :=
  jsSplitAux sep (s.length + 1) s

/-- JS `String.prototype.includes(sep)`. -/
def jsIncludes (sep s : List Char) : Bool :=
  (splitOnce sep s).isSome

/-- Decimal digit character for a value in `[0, 9]`. -/
def digitChar10 (n : Nat) : Char := Char.ofNat (48 + n)

/-- Fuel-driven worker for `natDigits`. -/
def natDigitsAux : Nat → Nat → List Char → List Char
  | 0, _, acc => acc
  | fuel + 1, n, acc =>
      if n < 10 then digitChar10 n :: acc
      else natDigitsAux fuel (n / 10) (digitChar10 (n % 10) :: acc)

/-- Decimal digits of a natural number, as JS `Number.prototype.toString`
renders it (no leading zeros, `0 ↦ "0"`). -/
def natDigits (n : Nat) : List Char := natDigitsAux (n + 1) n []

/-- JS `Number.prototype.toString` for an integral JS number. -/
def jsIntToString (n : Int) : List Char :=
  if n < 0 then '-' :: natDigits n.natAbs else natDigits n.toNat

/-- JS `replace(/\s+/g, '_')` worker: the flag records whether we are inside
a whitespace run that has already emitted its `'_'`. -/
def collapseWsAux : List Char → Bool → List Char
  | [], _ => []
  | c :: rest, inRun =>
      if isWsChar c then
        if inRun then collapseWsAux rest true else '_' :: collapseWsAux rest true
      else c :: collapseWsAux rest false

/-- JS `String.prototype.replace(/\s+/g, '_')`. -/
def collapseWs (l : List Char) : List Char := collapseWsAux l false

/-! ### Data model -/

/-- `this.ledColor`: an `{r, g, b}` record of JS numbers, each either an
integer or `NaN` (`none`). -/
structure LedColor where
  r : Option Int
  g : Option Int
  b : Option Int
deriving DecidableEq

/-- One entry of `this.buttonStates` (`{state, lastPress}`). -/
structure ButtonState where
  state : Int
  lastPress : Int
deriving DecidableEq

/-- One entry of `config.buttonMappings`. -/
structure ButtonMapping where
  buttonNumber : Int
  modeColor : String
  actionType : String
  targetName : String
  url : String
deriving DecidableEq

/-- One entry of `this.eventQueue` (`{buttonIndex, state}`). -/
structure QueuedEvent where
  buttonIndex : Int
  state : Int
deriving DecidableEq

/-- The outward effect chosen by `executeButtonAction` for a selected
mapping. -/
inductive Dispatch where
  | virtualSwitch (m : ButtonMapping)
  | url (m : ButtonMapping)
  | homekit (m : ButtonMapping)
deriving DecidableEq

/-- The mutable fields of the `IPortSMButtonsPlatform` instance that the
session core reads or writes, together with trace fields recording outward
side effects (socket writes, press notifications, dispatched actions,
reachability callbacks, scheduled reconnect timers) and a ghost trace of
`handleButtonEvent` invocations. -/
structure PlatformState where
  connected : Bool
  isShuttingDown : Bool
  hasAccessory : Bool
  ledColor : LedColor
  currentColorIndex : Nat
  buttonStates : List ButtonState
  buttonServices : List Bool
  buttonMappings : List ButtonMapping
  mappingSwitchKeys : List (List Char)
  eventQueue : List QueuedEvent
  lastRawData : List Char
  written : List (List Char)
  pressEmissions : List Int
  dispatches : List Dispatch
  handleCalls : List QueuedEvent
  reachNotifies : List Bool
  scheduledConnects : List Int
  reconnectDelay : Int
  keepAliveActive : Bool
deriving DecidableEq

/-- `this.modeColors`, in JS object insertion order. -/
def modeColorsList : List (String × Int × Int × Int) :=
  [("yellow", 255, 255, 0), ("red", 255, 0, 0), ("blue", 0, 0, 255),
   ("green", 0, 255, 0), ("purple", 255, 0, 255), ("white", 255, 255, 255)]

/-- Lookup in `this.modeColors` by mode name. -/
def modeColorsFind (name : String) : Option (Int × Int × Int) :=
  (modeColorsList.find? (fun m => m.1 = name)).map (fun m => m.2)

/-- `this.colorCycle`. -/
def colorCycle : List String :=
  ["red", "green", "blue", "yellow", "purple", "white"]

/-! ### Color math over `ℚ` (index.js lines 384-415) -/

/-- JS `Math.round` (half away from zero is half toward `+∞` in JS): round
to the nearest integer, ties upward. -/
def jsRound (x : ℚ) : Int := ⌊x + 1 / 2⌋

/-- `rgbToHsv`: the scaled maximum `max(r/255, g/255, b/255)` (the JS local
`max`, also the value `v`). -/
def rgbMax (r g b : ℚ) : ℚ := max (r / 255) (max (g / 255) (b / 255))

/-- `rgbToHsv`: the scaled minimum (the JS local `min`). -/
def rgbMin (r g b : ℚ) : ℚ := min (r / 255) (min (g / 255) (b / 255))

/-- `rgbToHsv`: the JS local `d = max - min`. -/
def rgbDelta (r g b : ℚ) : ℚ := rgbMax r g b - rgbMin r g b

/-- `rgbToHsv`: the JS local `s` (`0` when `max` is `0`, else `d / max`). -/
def rgbSat (r g b : ℚ) : ℚ :=
  if rgbMax r g b = 0 then 0 else rgbDelta r g b / rgbMax r g b

/-- `rgbToHsv`: the hue sector value before the final `h /= 6`, i.e. the JS
`switch (max)` computation (`case r`, then `case g`, then `case b`). -/
def rgbHue6 (r g b : ℚ) : ℚ :=
  if rgbMax r g b = r / 255 then
    (g / 255 - b / 255) / rgbDelta r g b + (if g / 255 < b / 255 then 6 else 0)
  else if rgbMax r g b = g / 255 then
    (b / 255 - r / 255) / rgbDelta r g b + 2
  else
    (r / 255 - g / 255) / rgbDelta r g b + 4

/-- `rgbToHsv`: the JS local `h` (0 when achromatic, else the sector value
divided by 6). -/
def rgbHueRaw (r g b : ℚ) : ℚ :=
  if rgbMax r g b = rgbMin r g b then 0 else rgbHue6 r g b / 6

/-- `rgbToHsv(r, g, b)`: returns `{h: h*360, s: s*100, v: v*100}`. -/
def rgbToHsv (r g b : ℚ) : ℚ × ℚ × ℚ :=
  (rgbHueRaw r g b * 360, rgbSat r g b * 100, rgbMax r g b * 100)

/-- `hsvToRgb`: the JS local `i = Math.floor(h * 6)` after `h /= 360`. -/
def hsvI (h : ℚ) : Int := ⌊h / 360 * 6⌋

/-- `hsvToRgb`: the JS local `f = h * 6 - i`. -/
def hsvF (h : ℚ) : ℚ := h / 360 * 6 - hsvI h

/-- `hsvToRgb`: the JS local `p = v * (1 - s)` (after rescaling). -/
def hsvP (s v : ℚ) : ℚ := v / 100 * (1 - s / 100)

/-- `hsvToRgb`: the JS local `q = v * (1 - f * s)`. -/
def hsvQ (h s v : ℚ) : ℚ := v / 100 * (1 - hsvF h * (s / 100))

/-- `hsvToRgb`: the JS local `t = v * (1 - (1 - f) * s)`. -/
def hsvT (h s v : ℚ) : ℚ := v / 100 * (1 - (1 - hsvF h) * (s / 100))

/-- `hsvToRgb(h, s, v)`: the `switch (i % 6)` (JS `%` truncates toward zero,
i.e. `Int.tmod`) selects the sector formula; each channel is then
`Math.round(x * 255)`. A sector outside `0..5` leaves the JS locals
`r, g, b` undefined and every channel `NaN`, modelled as `none`. -/
def hsvToRgb (h s v : ℚ) : Option (Int × Int × Int) :=
  if (hsvI h).tmod 6 = 0 then
    some (jsRound (v / 100 * 255), jsRound (hsvT h s v * 255), jsRound (hsvP s v * 255))
  else if (hsvI h).tmod 6 = 1 then
    some (jsRound (hsvQ h s v * 255), jsRound (v / 100 * 255), jsRound (hsvP s v * 255))
  else if (hsvI h).tmod 6 = 2 then
    some (jsRound (hsvP s v * 255), jsRound (v / 100 * 255), jsRound (hsvT h s v * 255))
  else if (hsvI h).tmod 6 = 3 then
    some (jsRound (hsvP s v * 255), jsRound (hsvQ h s v * 255), jsRound (v / 100 * 255))
  else if (hsvI h).tmod 6 = 4 then
    some (jsRound (hsvT h s v * 255), jsRound (hsvP s v * 255), jsRound (v / 100 * 255))
  else if (hsvI h).tmod 6 = 5 then
    some (jsRound (v / 100 * 255), jsRound (hsvP s v * 255), jsRound (hsvQ h s v * 255))
  else none

/-! ### Session-core operations (index.js lines 150-367) -/

/-- `updateLightCharacteristics` (lines 369-379) only pushes the current
`ledColor`, converted by `rgbToHsv`, to the external Lightbulb service; it
changes no session state. -/
def updateLightCharacteristics (st : PlatformState) : PlatformState := st

/-- `parseAndSetLedFromString(ledValue)` (lines 150-160): trim, left-pad
with `'0'` to length 9, keep the first 9 characters, and `parseInt` the
three 3-character fields. Nothing in the `try` block can throw, so the
result is always stored. -/
def parseAndSetLedFromString (ledValue : List Char) (st : PlatformState) : PlatformState :=
  let s := jsTrim ledValue
  let padded := jsSubstr (jsPadStart 9 '0' s) 0 9
  let newR := jsParseInt10 (jsSubstr padded 0 3)
  let newG := jsParseInt10 (jsSubstr padded 3 3)
  let newB := jsParseInt10 (jsSubstr padded 6 3)
  updateLightCharacteristics { st with ledColor := ⟨newR, newG, newB⟩ }

/-- The socket `data` handler for a chunk that is not valid JSON
(lines 102-105 and the `catch` branch, lines 117-126): trim the chunk,
record it as `lastRawData`, then either take the text after the first
`led=` or accept a bare 9-digit reply. -/
def socketDataLegacy (data : List Char) (st : PlatformState) : PlatformState :=
  if st.isShuttingDown then st
  else
    let str := jsTrim data
    let st := { st with lastRawData := str }
    if jsIncludes ("led=".data) str then
      match ((jsSplit ("led=".data) str).get? 1).map jsTrim with
      | some ledValue =>
          if ledValue.isEmpty then st else parseAndSetLedFromString ledValue st
      | none => st
    else
      let possibleRGB := jsTrim (str.filter (fun c => ¬(c = '\r' || c = '\n')))
      if possibleRGB.length = 9 && possibleRGB.all isDigit10 then
        parseAndSetLedFromString possibleRGB st
      else st

/-- `getCurrentMode` (lines 287-299): `"off"` for pure black, otherwise
normalize each channel by the dominant one (`Math.round(c / max * 255)`)
and look the result up in `modeColors`; `"unknown"` when nothing matches.
A `NaN` channel poisons every comparison, and so does the non-finite
arithmetic when `max` is `0`, giving `"unknown"` in both cases. -/
def getCurrentMode (c : LedColor) : String :=
  match c.r, c.g, c.b with
  | some r, some g, some b =>
      if r = 0 && g = 0 && b = 0 then "off"
      else
        let mx : Int := max r (max g b)
        if mx = 0 then "unknown"
        else
          let r1 := jsRound ((r : ℚ) / (mx : ℚ) * 255)
          let g1 := jsRound ((g : ℚ) / (mx : ℚ) * 255)
          let b1 := jsRound ((b : ℚ) / (mx : ℚ) * 255)
          match modeColorsList.find? (fun m =>
              m.2.1 = r1 && m.2.2.1 = g1 && m.2.2.2 = b1) with
          | some m => m.1
          | none => "unknown"
  | _, _, _ => "unknown"

/-- The set-command string of `setLED` (line 357):
`"\rled=" + r.toString().padStart(3, '0') + ... + "\r"`. -/
def ledSetCmd (r g b : Int) : List Char :=
  ("\rled=".data) ++ jsPadStart 3 '0' (jsIntToString r)
    ++ jsPadStart 3 '0' (jsIntToString g)
    ++ jsPadStart 3 '0' (jsIntToString b) ++ ("\r".data)

/-- Spec-side rendering of one channel: exactly three zero-padded decimal
digit characters ("zero-padded 3-digit decimal field"). -/
def digits3 (n : Int) : List Char :=
  [digitChar10 (n.toNat / 100 % 10), digitChar10 (n.toNat / 10 % 10),
   digitChar10 (n.toNat % 10)]

/-- Spec-side set command, following the spec's words:
`formatSetCommand(r,g,b) = "\rled=" + zero-padded 3-digit decimal for each
channel + "\r"`. -/
def specFormatSetCommand (r g b : Int) : List Char :=
  ("\rled=".data) ++ digits3 r ++ digits3 g ++ digits3 b ++ ("\r".data)

/-- `setLED(r, g, b)` (lines 355-362): no-op unless connected and not
shutting down; otherwise write the set command and optimistically store the
new color. -/
def setLED (st : PlatformState) (r g b : Int) : PlatformState :=
  if !st.connected || st.isShuttingDown then st
  else
    { st with written := st.written ++ [ledSetCmd r g b],
              ledColor := ⟨some r, some g, some b⟩ }

/-- `cycleLEDColor` (lines 280-285): advance `currentColorIndex` modulo the
cycle length and set the LED to the named color. The cycle names are all in
`modeColors`, so the lookup never fails; the impossible `none` branch (a JS
`TypeError`) leaves the state unchanged. -/
def cycleLEDColor (st : PlatformState) : PlatformState :=
  let idx := (st.currentColorIndex + 1) % colorCycle.length
  let st := { st with currentColorIndex := idx }
  match modeColorsFind ((colorCycle.get? idx).getD "") with
  | some c => setLED st c.1 c.2.1 c.2.2
  | none => st

/-- `getMappingKey(mapping)` (lines 243-247). -/
def getMappingKey (m : ButtonMapping) : List Char :=
  ("btn".data) ++ jsIntToString m.buttonNumber ++ ('-' :: m.modeColor.data)
    ++ ('-' :: m.actionType.data) ++ ('-' :: collapseWs m.targetName.data)

/-- The mapping-lookup of `executeButtonAction` (lines 211-217): filter the
configured mappings by button number, prefer an exact `modeColor` match,
fall back to `"any"`. -/
def selectAction (mappings : List ButtonMapping) (buttonNumber : Int)
    (currentMode : String) : Option ButtonMapping :=
  let actions := mappings.filter (fun m => m.buttonNumber = buttonNumber)
  if actions.isEmpty then none
  else
    match actions.find? (fun a => a.modeColor = currentMode) with
    | some a => some a
    | none => actions.find? (fun a => a.modeColor = "any")

/-- How `executeButtonAction` (lines 219-231) dispatches a selected mapping:
a registered virtual switch wins, then `actionType === 'url'`, else the
HomeKit action. The `hap.uuid.generate` step is deterministic and injective,
so switch registration is keyed directly by `getMappingKey`. -/
def dispatchFor (st : PlatformState) (m : ButtonMapping) : Dispatch :=
  if st.mappingSwitchKeys.contains (getMappingKey m) then .virtualSwitch m
  else if m.actionType = "url" then .url m
  else .homekit m

/-- `executeButtonAction(buttonNumber)` (lines 205-232): button 10 always
cycles the LED color; otherwise look up a mapping and dispatch it, or do
nothing. -/
def executeButtonAction (st : PlatformState) (buttonNumber : Int) : PlatformState :=
  if buttonNumber = 10 then cycleLEDColor st
  else
    match selectAction st.buttonMappings buttonNumber (getCurrentMode st.ledColor) with
    | none => st
    | some action => { st with dispatches := st.dispatches ++ [dispatchFor st action] }

/-- `this.buttonServices[buttonIndex]` is truthy (a JS array yields
`undefined` for negative or out-of-range indices). -/
def svcPresent (st : PlatformState) (i : Int) : Bool :=
  if i < 0 then false else st.buttonServices.getD i.toNat false

/-- `handleButtonEvent(buttonIndex, state)` (lines 180-195); `now` is
`Date.now()`. The ghost field `handleCalls` records every invocation. A
press records `{state: 1, lastPress: now}`; a release while pressed clears
the state, emits one `ProgrammableSwitchEvent` (single press) and runs
`executeButtonAction(buttonIndex + 1)`. -/
def handleButtonEvent (st : PlatformState) (buttonIndex state now : Int) : PlatformState :=
  let st0 := { st with handleCalls := st.handleCalls ++ [⟨buttonIndex, state⟩] }
  if !st.connected || st.isShuttingDown then st0
  else if !svcPresent st buttonIndex then st0
  else
    match st.buttonStates.get? buttonIndex.toNat with
    | none => st0
    | some bs =>
        if state = 1 then
          { st0 with buttonStates := st.buttonStates.set buttonIndex.toNat ⟨1, now⟩ }
        else if state = 0 && bs.state = 1 then
          executeButtonAction
            { st0 with
                buttonStates := st.buttonStates.set buttonIndex.toNat ⟨0, bs.lastPress⟩,
                pressEmissions := st.pressEmissions ++ [buttonIndex] }
            (buttonIndex + 1)
        else st0

/-- `queueOrHandleEvent(buttonIndex, state)` (lines 165-171): queue while
the accessory layer is not ready (`buttonServices.length === 0`), else
handle at once. -/
def queueOrHandleEvent (st : PlatformState) (buttonIndex state now : Int) : PlatformState :=
  if st.buttonServices.isEmpty then
    { st with eventQueue := st.eventQueue ++ [⟨buttonIndex, state⟩] }
  else handleButtonEvent st buttonIndex state now

/-- Fuel-driven worker for `processQueuedEvents`; `handleButtonEvent` never
enqueues, so fuel equal to the initial queue length is exact. -/
def processQueuedEventsAux : Nat → PlatformState → Int → PlatformState
  | 0, st, _ => st
  | fuel + 1, st, now =>
      match st.eventQueue with
      | [] => st
      | ev :: rest =>
          processQueuedEventsAux fuel
            (handleButtonEvent { st with eventQueue := rest } ev.buttonIndex ev.state now) now

/-- `processQueuedEvents` (lines 173-178): shift and handle until the queue
is empty. -/
def processQueuedEvents (st : PlatformState) (now : Int) : PlatformState :=
  processQueuedEventsAux st.eventQueue.length st now

/-- The socket `data` handler's `json.events` branch (lines 110-115): each
event's `label` (`"Key N"`) is split on a space and field 1 parsed to a
1-based key number, its `state` parsed to an integer; events with a `NaN`
key or state are dropped, the rest queued or handled. -/
def processEvents (events : List (List Char × List Char)) (now : Int)
    (st : PlatformState) : PlatformState :=
  events.foldl (fun st ev =>
    let keyNum := (jsParseInt10 (((jsSplit ([' ']) ev.1).get? 1).getD ('u' :: []))).map
      (fun n => n - 1)
    let state := jsParseInt10 ev.2
    match keyNum, state with
    | some k, some s => queueOrHandleEvent st k s now
    | _, _ => st) st

/-- The socket `error` handler (lines 129-135): destroy the socket, mark
disconnected, push a reachability-false notification when the main
accessory exists, and (unless shutting down) schedule one `connect()` after
`reconnectDelay` milliseconds. -/
def onSocketError (st : PlatformState) : PlatformState :=
  let st := { st with connected := false }
  let st := if st.hasAccessory then { st with reachNotifies := st.reachNotifies ++ [false] } else st
  if !st.isShuttingDown then
    { st with scheduledConnects := st.scheduledConnects ++ [st.reconnectDelay] }
  else st

/-- The socket `close` handler (lines 137-143): mark disconnected, push a
reachability-false notification when the main accessory exists, stop the
keepalive timer, and (unless shutting down) schedule another `connect()`. -/
def onSocketClose (st : PlatformState) : PlatformState :=
  let st := { st with connected := false }
  let st := if st.hasAccessory then { st with reachNotifies := st.reachNotifies ++ [false] } else st
  let st := { st with keepAliveActive := false }
  if !st.isShuttingDown then
    { st with scheduledConnects := st.scheduledConnects ++ [st.reconnectDelay] }
  else st

/-- A transport error on a live `net.Socket`: Node emits `'close'` directly
after `'error'` (and the error handler itself destroys the socket), so the
`error` handler runs and then the `close` handler runs. -/
def transportErrorStep (st : PlatformState) : PlatformState :=
  onSocketClose (onSocketError st)

/-! ### Concrete states -/

/-- The platform state as the constructor builds it (lines 22-48):
disconnected, white LED, ten idle buttons, nothing queued or registered. -/
def initialState (mappings : List ButtonMapping) : PlatformState where
  connected := false
  isShuttingDown := false
  hasAccessory := false
  ledColor := ⟨some 255, some 255, some 255⟩
  currentColorIndex := 0
  buttonStates := List.replicate 10 ⟨0, 0⟩
  buttonServices := []
  buttonMappings := mappings
  mappingSwitchKeys := []
  eventQueue := []
  lastRawData := []
  written := []
  pressEmissions := []
  dispatches := []
  handleCalls := []
  reachNotifies := []
  scheduledConnects := []
  reconnectDelay := 5000
  keepAliveActive := true

/-- A session that has connected and registered its accessories: the state
in which live button events are processed. -/
def readyState (mappings : List ButtonMapping) : PlatformState :=
  { initialState mappings with
      connected := true
      hasAccessory := true
      buttonServices := List.replicate 10 true }

/-- A live session in which button 0 is currently held down
(`buttonStates[0] = {state: 1, lastPress: 5}`). -/
def pressedState : PlatformState :=
  { readyState [] with buttonStates := ⟨1, 5⟩ :: List.replicate 9 ⟨0, 0⟩ }

/-- A decoded LED channel is either `NaN` or a bounded integer. -/
def chanBounded (o : Option Int) : Prop :=
  o = none ∨ ∃ n, o = some n ∧ -99 ≤ n ∧ n ≤ 999

/-! ### Helper lemmas about the string primitives -/

theorem dropWhile_eq_self_of (p : Char → Bool) (l : List Char)
    (h : ∀ c ∈ l, p c = false) : l.dropWhile p = l := by
  cases l with
  | nil => rfl
  | cons c cs => simp [List.dropWhile, h c (by simp)]

theorem takeWhile_eq_self_of (p : Char → Bool) (l : List Char)
    (h : ∀ c ∈ l, p c = true) : l.takeWhile p = l := by
  induction l with
  | nil => rfl
  | cons c cs ih =>
      simp only [List.takeWhile, h c (by simp)]
      simp only [List.cons.injEq, true_and]
      exact ih (fun d hd => h d (by simp [hd]))

theorem isWsChar_false_of_digit (c : Char) (h : isDigit10 c = true) :
    isWsChar c = false := by
  simp only [isDigit10, Bool.and_eq_true, decide_eq_true_eq] at h
  simp only [isWsChar, Bool.or_eq_false_iff, decide_eq_false_iff_not]
  omega

theorem jsTrim_eq_self_of_digits (l : List Char)
    (h : ∀ c ∈ l, isDigit10 c = true) : jsTrim l = l := by
  unfold jsTrim
  rw [dropWhile_eq_self_of _ _ (fun c hc => isWsChar_false_of_digit c (h c hc)),
      dropWhile_eq_self_of _ _ (fun c hc =>
        isWsChar_false_of_digit c (h c (List.mem_reverse.mp hc))),
      List.reverse_reverse]

theorem length_dropWhile_le (p : Char → Bool) (l : List Char) :
    (l.dropWhile p).length ≤ l.length := by
  induction l with
  | nil => simp [List.dropWhile]
  | cons c cs ih =>
      simp only [List.dropWhile]
      split
      · simp only [List.length_cons]; omega
      · simp

theorem length_takeWhile_le (p : Char → Bool) (l : List Char) :
    (l.takeWhile p).length ≤ l.length := by
  induction l with
  | nil => simp [List.takeWhile]
  | cons c cs ih =>
      simp only [List.takeWhile]
      split
      · simp only [List.length_cons]; omega
      · simp

theorem foldl_digitsToNat (l : List Char) (a : Nat) :
    l.foldl (fun x c => x * 10 + (c.toNat - 48)) a
      = a * 10 ^ l.length + digitsToNat l := by
  induction l generalizing a with
  | nil => simp [digitsToNat]
  | cons c cs ih =>
      simp only [List.foldl_cons, List.length_cons, digitsToNat]
      rw [ih (a * 10 + (c.toNat - 48)), ih (0 * 10 + (c.toNat - 48))]
      ring

theorem digitsToNat_cons (c : Char) (l : List Char) :
    digitsToNat (c :: l) = (c.toNat - 48) * 10 ^ l.length + digitsToNat l := by
  rw [show digitsToNat (c :: l)
        = l.foldl (fun x d => x * 10 + (d.toNat - 48)) (0 * 10 + (c.toNat - 48)) from rfl,
      show (0 : Nat) * 10 + (c.toNat - 48) = c.toNat - 48 by omega]
  exact foldl_digitsToNat l _

theorem digitsToNat_append (l₁ l₂ : List Char) :
    digitsToNat (l₁ ++ l₂) = digitsToNat l₁ * 10 ^ l₂.length + digitsToNat l₂ := by
  rw [show digitsToNat (l₁ ++ l₂)
        = (l₁ ++ l₂).foldl (fun x d => x * 10 + (d.toNat - 48)) 0 from rfl,
      List.foldl_append, foldl_digitsToNat]
  rfl

theorem digitsToNat_lt (l : List Char) (h : ∀ c ∈ l, isDigit10 c = true) :
    digitsToNat l < 10 ^ l.length := by
  induction l with
  | nil => simp [digitsToNat]
  | cons c cs ih =>
      have hc := h c (by simp)
      simp only [isDigit10, Bool.and_eq_true, decide_eq_true_eq] at hc
      have hcs := ih (fun d hd => h d (by simp [hd]))
      rw [digitsToNat_cons]
      have hd9 : c.toNat - 48 ≤ 9 := by omega
      have hm : (c.toNat - 48) * 10 ^ cs.length ≤ 9 * 10 ^ cs.length :=
        Nat.mul_le_mul_right (10 ^ cs.length) hd9
      have hpow : 10 ^ (c :: cs).length = 10 * 10 ^ cs.length := by
        simp [List.length_cons, pow_succ]; ring
      omega

theorem digitsToNat_replicate_zero (k : Nat) :
    digitsToNat (List.replicate k '0') = 0 := by
  induction k with
  | zero => rfl
  | succ n ih =>
      rw [List.replicate_succ, digitsToNat_cons, ih]
      have : '0'.toNat - 48 = 0 := by decide
      rw [this]
      simp

theorem digitsToNat_replicate_zero_append (k : Nat) (l : List Char) :
    digitsToNat (List.replicate k '0' ++ l) = digitsToNat l := by
  rw [digitsToNat_append, digitsToNat_replicate_zero]
  simp

theorem jsParseInt10_digits (l : List Char) (hne : l ≠ [])
    (h : ∀ c ∈ l, isDigit10 c = true) :
    jsParseInt10 l = some ((digitsToNat l : Int)) := by
  have hws : l.dropWhile isWsChar = l :=
    dropWhile_eq_self_of _ _ (fun c hc => isWsChar_false_of_digit c (h c hc))
  have htake : l.takeWhile isDigit10 = l := takeWhile_eq_self_of _ _ h
  cases l with
  | nil => exact absurd rfl hne
  | cons c cs =>
      have hc := h c (by simp)
      simp only [isDigit10, Bool.and_eq_true, decide_eq_true_eq] at hc
      have hm : (c :: cs).head? = some c := rfl
      have hnm : ¬((c :: cs).head? = some '-') := by
        rw [hm]
        intro hx
        have : c.toNat = 45 := by rw [Option.some.injEq] at hx; rw [hx]; rfl
        omega
      have hnp : ¬((c :: cs).head? = some '+') := by
        rw [hm]
        intro hx
        have : c.toNat = 43 := by rw [Option.some.injEq] at hx; rw [hx]; rfl
        omega
      have hor : ¬((c :: cs).head? = some '-' ∨ (c :: cs).head? = some '+') :=
        fun hx => hx.elim hnm hnp
      simp only [jsParseInt10, hws, if_neg hnm, if_neg hor]
      rw [htake]
      rw [if_neg (by simp)]
      simp

theorem jsParseInt10_bound (l : List Char) (h : l.length ≤ 3) :
    chanBounded (jsParseInt10 l) := by
  have bound : ∀ (ds : List Char), ds.length ≤ 3 → digitsToNat ds ≤ 999 ∨
      ¬(∀ c ∈ ds, isDigit10 c = true) := by
    intro ds hlen
    by_cases hdig : ∀ c ∈ ds, isDigit10 c = true
    · left
      have := digitsToNat_lt ds hdig
      have h10 : (10 : Nat) ^ ds.length ≤ 10 ^ 3 := Nat.pow_le_pow_right (by omega) hlen
      omega
    · exact Or.inr hdig
  have key : ∀ (t2 : List Char), t2.length ≤ 3 →
      digitsToNat (t2.takeWhile isDigit10) ≤ 999 := by
    intro t2 hlen
    have htl : (t2.takeWhile isDigit10).length ≤ 3 :=
      le_trans (length_takeWhile_le _ _) hlen
    have := digitsToNat_lt (t2.takeWhile isDigit10)
      (fun c hc => List.mem_takeWhile_imp hc)
    have h10 : (10 : Nat) ^ (t2.takeWhile isDigit10).length ≤ 10 ^ 3 :=
      Nat.pow_le_pow_right (by omega) htl
    omega
  have key2 : ∀ (t2 : List Char), t2.length ≤ 2 →
      digitsToNat (t2.takeWhile isDigit10) ≤ 99 := by
    intro t2 hlen
    have htl : (t2.takeWhile isDigit10).length ≤ 2 :=
      le_trans (length_takeWhile_le _ _) hlen
    have := digitsToNat_lt (t2.takeWhile isDigit10)
      (fun c hc => List.mem_takeWhile_imp hc)
    have h10 : (10 : Nat) ^ (t2.takeWhile isDigit10).length ≤ 10 ^ 2 :=
      Nat.pow_le_pow_right (by omega) htl
    omega
  have hdl : (l.dropWhile isWsChar).length ≤ 3 :=
    le_trans (length_dropWhile_le _ _) h
  simp only [jsParseInt10]
  revert hdl
  generalize l.dropWhile isWsChar = t
  intro hdl
  have htail : t.tail.length ≤ 2 := by
    cases t with
    | nil => simp
    | cons c cs => simp only [List.tail_cons]; simp only [List.length_cons] at hdl; omega
  by_cases hm : t.head? = some '-'
  · rw [if_pos hm, if_pos (Or.inl hm)]
    by_cases hemp : (t.tail.takeWhile isDigit10).isEmpty = true
    · rw [if_pos hemp]; exact Or.inl rfl
    · rw [if_neg hemp]
      refine Or.inr ⟨_, rfl, ?_, ?_⟩
      · have := key2 t.tail htail; omega
      · have := key2 t.tail htail; omega
  · rw [if_neg hm]
    by_cases hp : t.head? = some '+'
    · rw [if_pos (Or.inr hp)]
      by_cases hemp : (t.tail.takeWhile isDigit10).isEmpty = true
      · rw [if_pos hemp]; exact Or.inl rfl
      · rw [if_neg hemp]
        refine Or.inr ⟨_, rfl, ?_, ?_⟩
        · have : (0:Int) ≤ (digitsToNat (t.tail.takeWhile isDigit10) : Int) :=
            Int.ofNat_nonneg _
          omega
        · have := key2 t.tail htail; omega
    · have hor : ¬(t.head? = some '-' ∨ t.head? = some '+') :=
        fun hx => hx.elim hm hp
      rw [if_neg hor]
      by_cases hemp : (t.takeWhile isDigit10).isEmpty = true
      · rw [if_pos hemp]; exact Or.inl rfl
      · rw [if_neg hemp]
        refine Or.inr ⟨_, rfl, ?_, ?_⟩
        · have : (0:Int) ≤ (digitsToNat (t.takeWhile isDigit10) : Int) :=
            Int.ofNat_nonneg _
          omega
        · have := key t hdl; omega

/-- Unfolded form of `parseAndSetLedFromString`: it replaces `ledColor` by
the three parsed fields of the padded, truncated, trimmed value and changes
nothing else. -/
theorem parseAndSetLed_eq (lv : List Char) (st : PlatformState) :
    parseAndSetLedFromString lv st =
      { st with ledColor :=
          ⟨jsParseInt10 (jsSubstr (jsSubstr (jsPadStart 9 '0' (jsTrim lv)) 0 9) 0 3),
           jsParseInt10 (jsSubstr (jsSubstr (jsPadStart 9 '0' (jsTrim lv)) 0 9) 3 3),
           jsParseInt10 (jsSubstr (jsSubstr (jsPadStart 9 '0' (jsTrim lv)) 0 9) 6 3)⟩ } := rfl

theorem jsSubstr_length_le (l : List Char) (a b : Nat) : (jsSubstr l a b).length ≤ b := by
  unfold jsSubstr
  rw [List.length_take]
  exact Nat.min_le_left _ _

/-! ### Claim theorems -/

/-- Claim C1, counterexample: decoding the received line `led=#FF8000` does
not set `DeviceColor` to `{255, 128, 0}`; there is no hex branch, so the
value decodes to `{r: 0, g: NaN, b: 0}`. -/
theorem ledDecode_C1_counterexample :
    (socketDataLegacy (("led=#FF8000").data) (readyState [])).ledColor
        = ⟨some 0, none, some 0⟩
    ∧ (socketDataLegacy (("led=#FF8000").data) (readyState [])).ledColor
        ≠ ⟨some 255, some 128, some 0⟩ := by
  exact ⟨by decide, by decide⟩

/-- Claim C1 (corrected): decoding `led=255128000` sets `DeviceColor` to
`{255, 128, 0}` (a value without `#` is decoded as three consecutive
3-digit decimal fields), but a value starting with `#` is not decoded as
hex: `led=#FF8000` is left-padded to `00#FF8000` and split into the same
decimal fields, yielding `{r: 0, g: NaN, b: 0}`. -/
theorem ledDecode_C1_amended :
    ∀ st : PlatformState, st.isShuttingDown = false →
      (socketDataLegacy (("led=255128000").data) st).ledColor
          = ⟨some 255, some 128, some 0⟩
      ∧ (socketDataLegacy (("led=#FF8000").data) st).ledColor
          = ⟨some 0, none, some 0⟩ := by
  intro st h
  unfold socketDataLegacy
  rw [h]
  exact ⟨rfl, rfl⟩

/-- Witness for C1 at the live session state. -/
theorem ledDecode_C1_witness :
    (socketDataLegacy (("led=255128000").data) (readyState [])).ledColor
        = ⟨some 255, some 128, some 0⟩
    ∧ (socketDataLegacy (("led=#FF8000").data) (readyState [])).ledColor
        = ⟨some 0, none, some 0⟩ :=
  ledDecode_C1_amended (readyState []) rfl

/-- Claim C2, counterexample: the wire chunk `led=999999999` is not valid
JSON, so the legacy branch decodes its value and stores `{999, 999, 999}` —
out of range, not discarded, and the previous `DeviceColor` is not
retained. -/
theorem ledDecode_C2_counterexample :
    (socketDataLegacy (("led=999999999").data) (readyState [])).ledColor
        = ⟨some 999, some 999, some 999⟩
    ∧ ¬((999 : Int) ≤ 255)
    ∧ (socketDataLegacy (("led=999999999").data) (readyState [])).ledColor
        ≠ (readyState []).ledColor := by
  exact ⟨by decide, by decide, by decide⟩

/-- Claim C2 (corrected): a decode step stores the parsed triple
unconditionally — the result never depends on the previous `DeviceColor`,
so an out-of-range or `NaN` component is kept, not discarded. What does
hold is a weaker bound: every stored component is either `NaN` or an
integer in `[-99, 999]` (each field is the `parseInt` of at most three
characters). -/
theorem ledDecode_C2_amended :
    ∀ (s : List Char) (st st' : PlatformState),
      (parseAndSetLedFromString s st).ledColor = (parseAndSetLedFromString s st').ledColor
      ∧ chanBounded ((parseAndSetLedFromString s st).ledColor.r)
      ∧ chanBounded ((parseAndSetLedFromString s st).ledColor.g)
      ∧ chanBounded ((parseAndSetLedFromString s st).ledColor.b) := by
  intro s st st'
  rw [parseAndSetLed_eq, parseAndSetLed_eq]
  exact ⟨rfl,
    jsParseInt10_bound _ (jsSubstr_length_le _ _ _),
    jsParseInt10_bound _ (jsSubstr_length_le _ _ _),
    jsParseInt10_bound _ (jsSubstr_length_le _ _ _)⟩

/-- Claim C4: a transport error while Connected and not shutting down runs
the `error` handler and, because the handler destroys the socket and Node
emits `close` directly after `error`, also the `close` handler — so the
session ends Disconnected but with two reachability-false notifications
and two scheduled reconnects (each after the configured 5000 ms delay),
not exactly one. -/
theorem session_C4_doubleReconnect :
    (transportErrorStep (readyState [])).connected = false
    ∧ (transportErrorStep (readyState [])).reachNotifies = [false, false]
    ∧ (transportErrorStep (readyState [])).scheduledConnects = [5000, 5000]
    ∧ (transportErrorStep (readyState [])).scheduledConnects.length ≠ 1 := by
  exact ⟨by decide, by decide, by decide, by decide⟩

/-- Claim C10: the decoder left-pads the trimmed value with `'0'` to length
9 and keeps only the first 9 characters. Consequently (i) decoding `255`
yields `{0, 0, 255}`; (ii) every all-digit value of length at most 9 lands
in the low-order channels, `{v/10^6, v/10^3 mod 10^3, v mod 10^3}` for its
numeric value `v`; and (iii) for values of length at least 9 only the first
9 characters matter. -/
theorem ledDecode_C10_padding :
    (∀ st : PlatformState,
        (parseAndSetLedFromString (("255").data) st).ledColor = ⟨some 0, some 0, some 255⟩)
    ∧ (∀ (l : List Char) (st : PlatformState), l ≠ [] → l.length ≤ 9 →
        (∀ c ∈ l, isDigit10 c = true) →
        (parseAndSetLedFromString l st).ledColor =
          ⟨some ((digitsToNat l / 1000000 : Nat) : Int),
           some ((digitsToNat l / 1000 % 1000 : Nat) : Int),
           some ((digitsToNat l % 1000 : Nat) : Int)⟩)
    ∧ (∀ (s₁ s₂ : List Char) (st : PlatformState),
        9 ≤ (jsTrim s₁).length → 9 ≤ (jsTrim s₂).length →
        (jsTrim s₁).take 9 = (jsTrim s₂).take 9 →
        parseAndSetLedFromString s₁ st = parseAndSetLedFromString s₂ st) := by
  refine ⟨fun st => rfl, ?_, ?_⟩
  · intro l st hne hlen hdig
    have htrim : jsTrim l = l := jsTrim_eq_self_of_digits l hdig
    have hpad : jsPadStart 9 '0' l = List.replicate (9 - l.length) '0' ++ l := by
      unfold jsPadStart
      by_cases h9 : 9 ≤ l.length
      · have h99 : l.length = 9 := le_antisymm hlen h9
        rw [if_pos h9, h99]
        simp
      · rw [if_neg h9]
    set p := List.replicate (9 - l.length) '0' ++ l with hp
    have hplen : p.length = 9 := by
      rw [hp, List.length_append, List.length_replicate]
      omega
    have hdigp : ∀ c ∈ p, isDigit10 c = true := by
      intro c hc
      rw [hp] at hc
      rcases List.mem_append.mp hc with hc | hc
      · have := List.eq_of_mem_replicate hc
        rw [this]
        decide
      · exact hdig c hc
    have hsub9 : jsSubstr p 0 9 = p := by
      unfold jsSubstr
      rw [List.drop_zero]
      exact List.take_of_length_le (by omega)
    have hseg1 : jsSubstr p 0 3 = p.take 3 := by
      unfold jsSubstr
      rw [List.drop_zero]
    have hseg2 : jsSubstr p 3 3 = (p.drop 3).take 3 := rfl
    have hseg3 : jsSubstr p 6 3 = (p.drop 6).take 3 := rfl
    have hlen1 : (p.take 3).length = 3 := by rw [List.length_take]; omega
    have hlen2 : ((p.drop 3).take 3).length = 3 := by
      rw [List.length_take, List.length_drop]; omega
    have hlen3 : ((p.drop 6).take 3).length = 3 := by
      rw [List.length_take, List.length_drop]; omega
    have hd1 : ∀ c ∈ p.take 3, isDigit10 c = true :=
      fun c hc => hdigp c ((List.take_sublist 3 p).subset hc)
    have hd2 : ∀ c ∈ (p.drop 3).take 3, isDigit10 c = true :=
      fun c hc => hdigp c (List.drop_subset 3 p ((List.take_sublist 3 _).subset hc))
    have hd3 : ∀ c ∈ (p.drop 6).take 3, isDigit10 c = true :=
      fun c hc => hdigp c (List.drop_subset 6 p ((List.take_sublist 3 _).subset hc))
    have hne1 : p.take 3 ≠ [] := by
      intro hx
      have := congrArg List.length hx
      rw [hlen1] at this
      simp at this
    have hne2 : (p.drop 3).take 3 ≠ [] := by
      intro hx
      have := congrArg List.length hx
      rw [hlen2] at this
      simp at this
    have hne3 : (p.drop 6).take 3 ≠ [] := by
      intro hx
      have := congrArg List.length hx
      rw [hlen3] at this
      simp at this
    have hsplit1 : p = p.take 3 ++ p.drop 3 := (List.take_append_drop 3 p).symm
    have hsplit2 : p.drop 3 = (p.drop 3).take 3 ++ (p.drop 3).drop 3 :=
      (List.take_append_drop 3 (p.drop 3)).symm
    have hdd : (p.drop 3).drop 3 = p.drop 6 := by rw [List.drop_drop]
    have hdtake : (p.drop 6).take 3 = p.drop 6 := by
      apply List.take_of_length_le
      rw [List.length_drop]
      omega
    have hldrop : (p.drop 3).length = 6 := by rw [List.length_drop]; omega
    have hv : digitsToNat p
        = digitsToNat (p.take 3) * 1000000
          + digitsToNat ((p.drop 3).take 3) * 1000 + digitsToNat (p.drop 6) := by
      conv_lhs => rw [hsplit1]
      rw [digitsToNat_append, hldrop]
      conv_lhs => rw [hsplit2]
      rw [digitsToNat_append, hdd]
      have hl6 : (p.drop 6).length = 3 := by rw [List.length_drop]; omega
      rw [hl6]
      ring
    have hvl : digitsToNat p = digitsToNat l := by
      rw [hp]
      exact digitsToNat_replicate_zero_append _ _
    have hb2 : digitsToNat ((p.drop 3).take 3) < 1000 := by
      have := digitsToNat_lt _ hd2
      rw [hlen2] at this
      omega
    have hb3 : digitsToNat (p.drop 6) < 1000 := by
      have h := digitsToNat_lt _ hd3
      rw [hlen3, hdtake] at h
      omega
    have hcolor : (parseAndSetLedFromString l st).ledColor =
        ⟨jsParseInt10 (jsSubstr p 0 3), jsParseInt10 (jsSubstr p 3 3),
         jsParseInt10 (jsSubstr p 6 3)⟩ := by
      rw [parseAndSetLed_eq, htrim, hpad, hsub9]
    rw [hcolor, hseg1, hseg2, hseg3]
    rw [jsParseInt10_digits _ hne1 hd1, jsParseInt10_digits _ hne2 hd2,
        jsParseInt10_digits _ hne3 hd3]
    rw [hdtake]
    have e1 : digitsToNat (p.take 3) = digitsToNat l / 1000000 := by omega
    have e2 : digitsToNat ((p.drop 3).take 3) = digitsToNat l / 1000 % 1000 := by omega
    have e3 : digitsToNat (p.drop 6) = digitsToNat l % 1000 := by omega
    rw [e1, e2, e3]
  · intro s₁ s₂ st h1 h2 heq
    have hp1 : jsPadStart 9 '0' (jsTrim s₁) = jsTrim s₁ := by
      unfold jsPadStart; rw [if_pos h1]
    have hp2 : jsPadStart 9 '0' (jsTrim s₂) = jsTrim s₂ := by
      unfold jsPadStart; rw [if_pos h2]
    have hs : jsSubstr (jsTrim s₁) 0 9 = jsSubstr (jsTrim s₂) 0 9 := by
      unfold jsSubstr
      rw [List.drop_zero, List.drop_zero]
      exact heq
    rw [parseAndSetLed_eq, parseAndSetLed_eq, hp1, hp2, hs]

/-! ### Frame lemmas for the session operations -/

theorem executeButtonAction_frame (st : PlatformState) (bn : Int) :
    (executeButtonAction st bn).eventQueue = st.eventQueue
    ∧ (executeButtonAction st bn).handleCalls = st.handleCalls
    ∧ (executeButtonAction st bn).pressEmissions = st.pressEmissions
    ∧ (executeButtonAction st bn).buttonStates = st.buttonStates
    ∧ (executeButtonAction st bn).buttonServices = st.buttonServices
    ∧ (executeButtonAction st bn).connected = st.connected
    ∧ (executeButtonAction st bn).isShuttingDown = st.isShuttingDown := by
  unfold executeButtonAction cycleLEDColor setLED
  dsimp only
  repeat' split
  all_goals exact ⟨rfl, rfl, rfl, rfl, rfl, rfl, rfl⟩

theorem handleButtonEvent_frame (st : PlatformState) (i s now : Int) :
    (handleButtonEvent st i s now).eventQueue = st.eventQueue
    ∧ (handleButtonEvent st i s now).handleCalls = st.handleCalls ++ [⟨i, s⟩] := by
  unfold handleButtonEvent
  dsimp only
  repeat' split
  all_goals
    first
      | exact ⟨rfl, rfl⟩
      | exact ⟨(executeButtonAction_frame _ _).1, (executeButtonAction_frame _ _).2.1⟩

/-! ### Mode classification and mapping selection -/

theorem getCurrentMode_ne_any (c : LedColor) : getCurrentMode c ≠ "any" := by
  rcases c with ⟨r, g, b⟩
  rcases r with _ | r <;> rcases g with _ | g <;> rcases b with _ | b <;>
    try (show "unknown" ≠ "any"; decide)
  dsimp only [getCurrentMode]
  split
  · decide
  · split
    · decide
    · split
      · rename_i m hm
        have hmem := List.mem_of_find?_eq_some hm
        simp only [modeColorsList, List.mem_cons, List.not_mem_nil, or_false] at hmem
        rcases hmem with h | h | h | h | h | h <;> (rw [h]; decide)
      · decide

theorem selectAction_exact (maps : List ButtonMapping) (bn : Int) (mode : String)
    (h : ∃ a ∈ maps.filter (fun m => m.buttonNumber = bn), a.modeColor = mode) :
    ∃ a, selectAction maps bn mode = some a
      ∧ a ∈ maps.filter (fun m => m.buttonNumber = bn) ∧ a.modeColor = mode := by
  unfold selectAction
  obtain ⟨a0, ha0, hm0⟩ := h
  have hne : ¬((maps.filter (fun m => m.buttonNumber = bn)).isEmpty = true) := by
    intro hx
    rw [List.isEmpty_iff] at hx
    rw [hx] at ha0
    exact List.not_mem_nil _ ha0
  rw [if_neg hne]
  have hsome : ((maps.filter (fun m => m.buttonNumber = bn)).find?
      (fun a => a.modeColor = mode)).isSome := by
    rw [List.find?_isSome]
    exact ⟨a0, ha0, by simp [hm0]⟩
  cases hf : (maps.filter (fun m => m.buttonNumber = bn)).find?
      (fun a => a.modeColor = mode) with
  | none => rw [hf] at hsome; simp at hsome
  | some a =>
      refine ⟨a, rfl, List.mem_of_find?_eq_some hf, ?_⟩
      have := List.find?_some hf
      simpa using this

theorem selectAction_any_only_fallback (maps : List ButtonMapping) (bn : Int) (mode : String)
    (hmode : mode ≠ "any") (a : ButtonMapping)
    (h : selectAction maps bn mode = some a) (hany : a.modeColor = "any") :
    ∀ b ∈ maps.filter (fun m => m.buttonNumber = bn), b.modeColor ≠ mode := by
  unfold selectAction at h
  by_cases hemp : ((maps.filter (fun m => m.buttonNumber = bn)).isEmpty = true)
  · rw [if_pos hemp] at h; cases h
  · rw [if_neg hemp] at h
    cases hf : (maps.filter (fun m => m.buttonNumber = bn)).find?
        (fun a => a.modeColor = mode) with
    | some x =>
        rw [hf] at h
        rw [Option.some.injEq] at h
        subst h
        have := List.find?_some hf
        simp only [decide_eq_true_eq] at this
        rw [hany] at this
        exact absurd this.symm hmode
    | none =>
        intro b hb
        have := List.find?_eq_none.mp hf b hb
        simpa using this

theorem selectAction_none (maps : List ButtonMapping) (bn : Int) (mode : String)
    (h : ∀ b ∈ maps.filter (fun m => m.buttonNumber = bn),
        b.modeColor ≠ mode ∧ b.modeColor ≠ "any") :
    selectAction maps bn mode = none := by
  unfold selectAction
  by_cases hemp : ((maps.filter (fun m => m.buttonNumber = bn)).isEmpty = true)
  · rw [if_pos hemp]
  · rw [if_neg hemp]
    have h1 : (maps.filter (fun m => m.buttonNumber = bn)).find?
        (fun a => a.modeColor = mode) = none :=
      List.find?_eq_none.mpr (fun x hx => by simp [(h x hx).1])
    have h2 : (maps.filter (fun m => m.buttonNumber = bn)).find?
        (fun a => a.modeColor = "any") = none :=
      List.find?_eq_none.mpr (fun x hx => by simp [(h x hx).2])
    rw [h1, h2]

theorem executeButtonAction_not10 (st : PlatformState) (bn : Int) (h : ¬(bn = 10)) :
    executeButtonAction st bn =
      (match selectAction st.buttonMappings bn (getCurrentMode st.ledColor) with
       | none => st
       | some action =>
          { st with dispatches := st.dispatches ++ [dispatchFor st action] }) := by
  unfold executeButtonAction
  rw [if_neg h]

/-- Witness for C10: `42` decodes into the blue channel, and the tenth
character of a long value is ignored. -/
theorem ledDecode_C10_witness :
    (parseAndSetLedFromString (("255").data) (readyState [])).ledColor
        = ⟨some 0, some 0, some 255⟩
    ∧ (parseAndSetLedFromString (("42").data) (readyState [])).ledColor
        = ⟨some ((digitsToNat (("42").data) / 1000000 : Nat) : Int),
           some ((digitsToNat (("42").data) / 1000 % 1000 : Nat) : Int),
           some ((digitsToNat (("42").data) % 1000 : Nat) : Int)⟩
    ∧ parseAndSetLedFromString (("123456789X").data) (readyState [])
        = parseAndSetLedFromString (("123456789").data) (readyState []) := by
  refine ⟨ledDecode_C10_padding.1 (readyState []),
    ledDecode_C10_padding.2.1 (("42").data) (readyState []) (by decide) (by decide) (by decide),
    ledDecode_C10_padding.2.2 (("123456789X").data) (("123456789").data) (readyState [])
      (by decide) (by decide) (by decide)⟩

/-- Claim C6: while connected, a press of button 10 advances the color
cycle by exactly one position (mod 6, wrapping after `white` back to
`red`), writes the set-command for the new position's canonical color and
records it as the LED color; no mapping is consulted: no dispatch happens
and the result does not depend on the configured mappings. -/
theorem dispatch_C6_buttonTen :
    ∀ st : PlatformState, st.connected = true → st.isShuttingDown = false →
      ((executeButtonAction st 10).currentColorIndex = (st.currentColorIndex + 1) % 6)
      ∧ (∃ name rgb,
           colorCycle.get? ((st.currentColorIndex + 1) % 6) = some name
           ∧ modeColorsFind name = some rgb
           ∧ (executeButtonAction st 10).ledColor = ⟨some rgb.1, some rgb.2.1, some rgb.2.2⟩
           ∧ (executeButtonAction st 10).written
               = st.written ++ [ledSetCmd rgb.1 rgb.2.1 rgb.2.2])
      ∧ ((executeButtonAction st 10).dispatches = st.dispatches)
      ∧ (∀ ms, executeButtonAction { st with buttonMappings := ms } 10
             = { executeButtonAction st 10 with buttonMappings := ms }) := by
  intro st hc hs
  obtain ⟨conn, shut, hacc, led, idx, bst, bsvc, bmap, mkeys, equ, lraw, wr, pe, disp, hcalls,
    rn, sc, rd, ka⟩ := st
  simp only at hc hs
  subst hc hs
  simp only [executeButtonAction, cycleLEDColor, setLED]
  have h6 : (idx + 1) % 6 = 0 ∨ (idx + 1) % 6 = 1 ∨ (idx + 1) % 6 = 2 ∨ (idx + 1) % 6 = 3
      ∨ (idx + 1) % 6 = 4 ∨ (idx + 1) % 6 = 5 := by omega
  have hlen : colorCycle.length = 6 := rfl
  rw [hlen]
  rcases h6 with h | h | h | h | h | h <;> rw [h]
  · exact ⟨rfl, ⟨"red", (255, 0, 0), rfl, rfl, rfl, rfl⟩, rfl, fun ms => rfl⟩
  · exact ⟨rfl, ⟨"green", (0, 255, 0), rfl, rfl, rfl, rfl⟩, rfl, fun ms => rfl⟩
  · exact ⟨rfl, ⟨"blue", (0, 0, 255), rfl, rfl, rfl, rfl⟩, rfl, fun ms => rfl⟩
  · exact ⟨rfl, ⟨"yellow", (255, 255, 0), rfl, rfl, rfl, rfl⟩, rfl, fun ms => rfl⟩
  · exact ⟨rfl, ⟨"purple", (255, 0, 255), rfl, rfl, rfl, rfl⟩, rfl, fun ms => rfl⟩
  · exact ⟨rfl, ⟨"white", (255, 255, 255), rfl, rfl, rfl, rfl⟩, rfl, fun ms => rfl⟩

/-- Witness for C6 at the last cycle position: the index wraps from 5
(`white`) back to 0 (`red`). -/
theorem dispatch_C6_witness :
    ((executeButtonAction { readyState [⟨10, "red", "url", "", ""⟩] with
        currentColorIndex := 5 } 10).currentColorIndex = 0)
    ∧ (∃ name rgb,
         colorCycle.get? 0 = some name
         ∧ modeColorsFind name = some rgb
         ∧ (executeButtonAction { readyState [⟨10, "red", "url", "", ""⟩] with
              currentColorIndex := 5 } 10).ledColor
             = ⟨some rgb.1, some rgb.2.1, some rgb.2.2⟩) := by
  have h := dispatch_C6_buttonTen
    { readyState [⟨10, "red", "url", "", ""⟩] with currentColorIndex := 5 } rfl rfl
  obtain ⟨name, rgb, h1, h2, h3, _⟩ := h.2.1
  exact ⟨h.1, name, rgb, h1, h2, h3⟩

/-- Claim C5: for a single-press on buttons 1-9 the dispatcher filters the
configured mappings by button number and (i) when an entry matching the
currently classified mode exists, such an entry is selected and exactly one
action for it is dispatched, (ii) an entry with `modeColor = "any"` is only
ever selected when no exact-mode entry exists, and (iii) when neither an
exact nor an `"any"` entry exists, nothing is dispatched. -/
theorem dispatch_C5_selection :
    ∀ (st : PlatformState) (bn : Int), 1 ≤ bn → bn ≤ 9 →
      ((∃ a ∈ st.buttonMappings.filter (fun m => m.buttonNumber = bn),
           a.modeColor = getCurrentMode st.ledColor) →
        ∃ a, selectAction st.buttonMappings bn (getCurrentMode st.ledColor) = some a
          ∧ a ∈ st.buttonMappings.filter (fun m => m.buttonNumber = bn)
          ∧ a.modeColor = getCurrentMode st.ledColor
          ∧ (executeButtonAction st bn).dispatches = st.dispatches ++ [dispatchFor st a])
      ∧ (∀ a, selectAction st.buttonMappings bn (getCurrentMode st.ledColor) = some a →
          a.modeColor = "any" →
          ∀ b ∈ st.buttonMappings.filter (fun m => m.buttonNumber = bn),
            b.modeColor ≠ getCurrentMode st.ledColor)
      ∧ ((∀ b ∈ st.buttonMappings.filter (fun m => m.buttonNumber = bn),
            b.modeColor ≠ getCurrentMode st.ledColor ∧ b.modeColor ≠ "any") →
          selectAction st.buttonMappings bn (getCurrentMode st.ledColor) = none
          ∧ (executeButtonAction st bn).dispatches = st.dispatches) := by
  intro st bn h1 h9
  have h10 : ¬(bn = 10) := by omega
  refine ⟨?_, ?_, ?_⟩
  · intro hex
    obtain ⟨a, hsel, hmem, hmode⟩ := selectAction_exact st.buttonMappings bn _ hex
    refine ⟨a, hsel, hmem, hmode, ?_⟩
    rw [executeButtonAction_not10 st bn h10, hsel]
  · intro a hsel hany
    exact selectAction_any_only_fallback st.buttonMappings bn _
      (getCurrentMode_ne_any st.ledColor).symm.symm a hsel hany
  · intro hnone
    have hsel := selectAction_none st.buttonMappings bn _ hnone
    refine ⟨hsel, ?_⟩
    rw [executeButtonAction_not10 st bn h10, hsel]

/-- Witness for C5: with a red LED, button 3 selects the `red` mapping over
the `any` one, and button 5 with no matching mapping dispatches nothing. -/
theorem dispatch_C5_witness :
    (∃ a, selectAction [⟨3, "red", "url", "", ""⟩, ⟨3, "any", "url", "", ""⟩] 3
        (getCurrentMode ⟨some 255, some 0, some 0⟩) = some a
      ∧ a.modeColor = getCurrentMode ⟨some 255, some 0, some 0⟩)
    ∧ selectAction [⟨3, "red", "url", "", ""⟩, ⟨3, "any", "url", "", ""⟩] 5
        (getCurrentMode ⟨some 255, some 0, some 0⟩) = none := by
  have hmode : getCurrentMode ⟨some 255, some 0, some 0⟩ = "red" := by
    unfold getCurrentMode jsRound
    norm_num [modeColorsList]
  have hst : ({ readyState [⟨3, "red", "url", "", ""⟩, ⟨3, "any", "url", "", ""⟩] with
      ledColor := ⟨some 255, some 0, some 0⟩ } : PlatformState).ledColor
        = ⟨some 255, some 0, some 0⟩ := rfl
  have h := dispatch_C5_selection
    { readyState [⟨3, "red", "url", "", ""⟩, ⟨3, "any", "url", "", ""⟩] with
        ledColor := ⟨some 255, some 0, some 0⟩ } 3 (by omega) (by omega)
  have h' := dispatch_C5_selection
    { readyState [⟨3, "red", "url", "", ""⟩, ⟨3, "any", "url", "", ""⟩] with
        ledColor := ⟨some 255, some 0, some 0⟩ } 5 (by omega) (by omega)
  constructor
  · obtain ⟨a, hsel, _, hmode', _⟩ := h.1 ⟨⟨3, "red", "url", "", ""⟩, by
      rw [hst, hmode]
      decide⟩
    exact ⟨a, hsel, hmode'⟩
  · exact (h'.2.2 (by rw [hst, hmode]; decide)).1

/-- Claim C3, counterexample: a `state = 1` event for a button that is
already Pressed does change the `ButtonState` — `lastPress` is refreshed to
the event time (here from 5 to 100). -/
theorem button_C3_counterexample :
    pressedState.buttonStates.get? 0 = some ⟨1, 5⟩
    ∧ (handleButtonEvent pressedState 0 1 100).buttonStates.get? 0 = some ⟨1, 100⟩
    ∧ (handleButtonEvent pressedState 0 1 100).buttonStates ≠ pressedState.buttonStates := by
  exact ⟨by decide, by decide, by decide⟩

/-- Claim C3 (corrected): (i) a `state = 1` event while already Pressed
emits nothing and keeps the phase Pressed, but refreshes `lastPress` to the
event time (the `ButtonState` is not unchanged); (ii) a `state = 0` event
while Pressed moves the button to Idle and emits exactly one single-press
completion; (iii) a `state = 0` event while Idle is a no-op (only the ghost
invocation trace grows); (iv) the `Key 3` press/release chunk pair yields
exactly one single-press completion, for button index 2. -/
theorem button_C3_amended :
    (∀ (st : PlatformState) (i now : Int) (bs : ButtonState),
       st.connected = true → st.isShuttingDown = false → svcPresent st i = true →
       st.buttonStates.get? i.toNat = some bs → bs.state = 1 →
       handleButtonEvent st i 1 now
         = { st with
              handleCalls := st.handleCalls ++ [⟨i, 1⟩]
              buttonStates := st.buttonStates.set i.toNat ⟨1, now⟩ })
    ∧ (∀ (st : PlatformState) (i now : Int) (bs : ButtonState),
       st.connected = true → st.isShuttingDown = false → svcPresent st i = true →
       st.buttonStates.get? i.toNat = some bs → bs.state = 1 →
       (handleButtonEvent st i 0 now).pressEmissions = st.pressEmissions ++ [i]
       ∧ (handleButtonEvent st i 0 now).buttonStates
           = st.buttonStates.set i.toNat ⟨0, bs.lastPress⟩)
    ∧ (∀ (st : PlatformState) (i now : Int) (bs : ButtonState),
       st.connected = true → st.isShuttingDown = false → svcPresent st i = true →
       st.buttonStates.get? i.toNat = some bs → ¬(bs.state = 1) →
       handleButtonEvent st i 0 now
         = { st with handleCalls := st.handleCalls ++ [⟨i, 0⟩] })
    ∧ ((processEvents [((("Key 3").data), (("0").data))] 200
          (processEvents [((("Key 3").data), (("1").data))] 100
            (readyState []))).pressEmissions = [2]) := by
  refine ⟨?_, ?_, ?_, by decide⟩
  · intro st i now bs hc hs hsvc hget hbs
    unfold handleButtonEvent
    dsimp only
    rw [hc, hs, if_neg (by decide), hsvc, if_neg (by decide), hget]
    dsimp only
    rw [if_pos rfl]
  · intro st i now bs hc hs hsvc hget hbs
    unfold handleButtonEvent
    dsimp only
    rw [hc, hs, if_neg (by decide), hsvc, if_neg (by decide), hget]
    dsimp only
    rw [if_neg (by decide), hbs, if_pos (by decide)]
    exact ⟨(executeButtonAction_frame _ _).2.2.1, (executeButtonAction_frame _ _).2.2.2.1⟩
  · intro st i now bs hc hs hsvc hget hbs
    unfold handleButtonEvent
    dsimp only
    rw [hc, hs, if_neg (by decide), hsvc, if_neg (by decide), hget]
    dsimp only
    rw [if_neg (by decide), if_neg (by simp [hbs])]

/-- Witness for C3 at concrete states: a repeat press on the held button
refreshes its timestamp, its release emits one single-press, and a stray
release on an idle button changes nothing but the trace. -/
theorem button_C3_witness :
    (handleButtonEvent pressedState 0 1 77
      = { pressedState with
            handleCalls := pressedState.handleCalls ++ [⟨0, 1⟩]
            buttonStates := pressedState.buttonStates.set 0 ⟨1, 77⟩ })
    ∧ ((handleButtonEvent pressedState 0 0 77).pressEmissions
        = pressedState.pressEmissions ++ [0])
    ∧ (handleButtonEvent (readyState []) 4 0 77
        = { readyState [] with handleCalls := (readyState []).handleCalls ++ [⟨4, 0⟩] }) := by
  refine ⟨?_, ?_, ?_⟩
  · exact button_C3_amended.1 pressedState 0 77 ⟨1, 5⟩ rfl rfl (by decide) (by decide) rfl
  · exact (button_C3_amended.2.1 pressedState 0 77 ⟨1, 5⟩ rfl rfl (by decide) (by decide) rfl).1
  · exact button_C3_amended.2.2.1 (readyState []) 4 77 ⟨0, 0⟩ rfl rfl (by decide) (by decide)
      (by decide)

/-! ### Event queue lemmas -/

theorem queueOrHandleEvent_notReady (st : PlatformState) (i s now : Int)
    (h : st.buttonServices = []) :
    queueOrHandleEvent st i s now = { st with eventQueue := st.eventQueue ++ [⟨i, s⟩] } := by
  unfold queueOrHandleEvent
  rw [h]
  rfl

theorem foldl_queueOrHandleEvent (evs : List QueuedEvent) (st : PlatformState) (now : Int)
    (h : st.buttonServices = []) :
    evs.foldl (fun s e => queueOrHandleEvent s e.buttonIndex e.state now) st
      = { st with eventQueue := st.eventQueue ++ evs } := by
  induction evs generalizing st with
  | nil => simp
  | cons e es ih =>
      rw [List.foldl_cons, queueOrHandleEvent_notReady _ _ _ _ h]
      rw [ih { st with eventQueue := st.eventQueue ++ [⟨e.buttonIndex, e.state⟩] } h]
      rw [List.append_assoc]
      rfl

theorem processQueuedEventsAux_spec (n : Nat) (st : PlatformState) (now : Int)
    (h : st.eventQueue.length ≤ n) :
    (processQueuedEventsAux n st now).handleCalls = st.handleCalls ++ st.eventQueue
    ∧ (processQueuedEventsAux n st now).eventQueue = [] := by
  induction n generalizing st with
  | zero =>
      have : st.eventQueue = [] := by
        cases hq : st.eventQueue with
        | nil => rfl
        | cons a l => rw [hq] at h; simp at h
      unfold processQueuedEventsAux
      rw [this]
      simp
  | succ n ih =>
      unfold processQueuedEventsAux
      cases hq : st.eventQueue with
      | nil => simp [hq]
      | cons ev rest =>
          have hlen : rest.length ≤ n := by
            rw [hq] at h; simp only [List.length_cons] at h; omega
          set stA := handleButtonEvent { st with eventQueue := rest }
            ev.buttonIndex ev.state now with hstA
          have hq1 : stA.eventQueue = rest := (handleButtonEvent_frame _ _ _ _).1
          have hc1 : stA.handleCalls = st.handleCalls ++ [ev] := by
            have := (handleButtonEvent_frame { st with eventQueue := rest }
              ev.buttonIndex ev.state now).2
            rw [hstA]
            exact this
          have hih := ih stA (by rw [hq1]; exact hlen)
          rw [hq1] at hih
          refine ⟨?_, hih.2⟩
          rw [hih.1, hc1, List.append_assoc]
          rfl

/-- Claim C7: events that arrive while the accessory layer is not ready are
appended to the queue in arrival order (and `handleButtonEvent` is not
invoked); once readiness is signalled, flushing delivers the whole queue to
`handleButtonEvent` in exactly that order, each event exactly once, and
empties the queue. -/
theorem queue_C7_fifo :
    ∀ (st : PlatformState) (evs : List QueuedEvent) (now : Int),
      st.buttonServices = [] →
      (evs.foldl (fun s e => queueOrHandleEvent s e.buttonIndex e.state now) st).eventQueue
          = st.eventQueue ++ evs
      ∧ (evs.foldl (fun s e => queueOrHandleEvent s e.buttonIndex e.state now) st).handleCalls
          = st.handleCalls
      ∧ ∀ svcs : List Bool,
          (processQueuedEvents
            { evs.foldl (fun s e => queueOrHandleEvent s e.buttonIndex e.state now) st with
                buttonServices := svcs } now).handleCalls
            = st.handleCalls ++ (st.eventQueue ++ evs)
          ∧ (processQueuedEvents
              { evs.foldl (fun s e => queueOrHandleEvent s e.buttonIndex e.state now) st with
                  buttonServices := svcs } now).eventQueue = [] := by
  intro st evs now h
  rw [foldl_queueOrHandleEvent evs st now h]
  refine ⟨rfl, rfl, ?_⟩
  intro svcs
  have := processQueuedEventsAux_spec
    (({ st with eventQueue := st.eventQueue ++ evs, buttonServices := svcs } :
        PlatformState).eventQueue.length)
    { st with eventQueue := st.eventQueue ++ evs, buttonServices := svcs } now le_rfl
  exact this

/-- Witness for C7: two events queued while not ready are flushed in order
and exactly once. -/
theorem queue_C7_witness :
    (([⟨2, 1⟩, ⟨2, 0⟩] : List QueuedEvent).foldl
        (fun s e => queueOrHandleEvent s e.buttonIndex e.state 0) (initialState [])).eventQueue
      = [⟨2, 1⟩, ⟨2, 0⟩]
    ∧ (processQueuedEvents
        { ([⟨2, 1⟩, ⟨2, 0⟩] : List QueuedEvent).foldl
            (fun s e => queueOrHandleEvent s e.buttonIndex e.state 0) (initialState []) with
            buttonServices := List.replicate 10 true } 0).handleCalls
      = [⟨2, 1⟩, ⟨2, 0⟩] := by
  have h := queue_C7_fifo (initialState []) [⟨2, 1⟩, ⟨2, 0⟩] 0 rfl
  exact ⟨h.1, (h.2.2 (List.replicate 10 true)).1⟩

/-! ### The set-command encoding -/

set_option maxRecDepth 4096 in
theorem pad3_eq_digits3_nat : ∀ n < 256,
    jsPadStart 3 '0' (natDigits n)
      = [digitChar10 (n / 100 % 10), digitChar10 (n / 10 % 10), digitChar10 (n % 10)] := by
  decide

/-- Claim C8: `setLED` is a complete no-op (nothing written, state fully
unchanged) unless the session is connected and not shutting down; when it
is, the exact string `"\rled=" ++ RRR ++ GGG ++ BBB ++ "\r"` (three
zero-padded 3-digit decimal fields) is written and the local `DeviceColor`
is optimistically set to `{r, g, b}`, with no other state change. -/
theorem setLED_C8_encoding :
    (∀ (st : PlatformState) (r g b : Int),
       st.connected = false ∨ st.isShuttingDown = true → setLED st r g b = st)
    ∧ (∀ (st : PlatformState) (r g b : Int),
       st.connected = true → st.isShuttingDown = false →
       0 ≤ r → r ≤ 255 → 0 ≤ g → g ≤ 255 → 0 ≤ b → b ≤ 255 →
       setLED st r g b
         = { st with
              written := st.written ++ [specFormatSetCommand r g b]
              ledColor := ⟨some r, some g, some b⟩ }) := by
  constructor
  · intro st r g b h
    unfold setLED
    rcases h with h | h <;> rw [h] <;> simp
  · intro st r g b hc hs hr0 hr hg0 hg hb0 hb
    have hcmd : ledSetCmd r g b = specFormatSetCommand r g b := by
      unfold ledSetCmd specFormatSetCommand digits3
      have hpad : ∀ (n : Int), 0 ≤ n → n ≤ 255 →
          jsPadStart 3 '0' (jsIntToString n)
            = [digitChar10 (n.toNat / 100 % 10), digitChar10 (n.toNat / 10 % 10),
               digitChar10 (n.toNat % 10)] := by
        intro n h0 h255
        unfold jsIntToString
        rw [if_neg (by omega)]
        exact pad3_eq_digits3_nat n.toNat (by omega)
      rw [hpad r hr0 hr, hpad g hg0 hg, hpad b hb0 hb]
    unfold setLED
    rw [hc, hs, hcmd]
    rfl

/-- Witness for C8: a disconnected session ignores `setLED`, and a live one
writes exactly `\rled=255128000\r` (checked character by character) and
stores the color. -/
theorem setLED_C8_witness :
    setLED (initialState []) 255 128 0 = initialState []
    ∧ setLED (readyState []) 255 128 0
        = { readyState [] with
              written := (readyState []).written ++ [specFormatSetCommand 255 128 0]
              ledColor := ⟨some 255, some 128, some 0⟩ }
    ∧ specFormatSetCommand 255 128 0 = ("\rled=255128000\r").data := by
  refine ⟨?_, ?_, by decide⟩
  · exact setLED_C8_encoding.1 (initialState []) 255 128 0 (Or.inl rfl)
  · exact setLED_C8_encoding.2 (readyState []) 255 128 0 rfl rfl (by omega) (by omega)
      (by omega) (by omega) (by omega) (by omega)

/-! ### RGB to HSV round trip (claim C9) -/

theorem hsvI_eq (H : ℚ) (k : Int) (h0 : (k : ℚ) ≤ H / 360 * 6) (h1 : H / 360 * 6 < k + 1) :
    hsvI H = k := by
  unfold hsvI
  rw [Int.floor_eq_iff]
  exact ⟨h0, h1⟩

theorem hsvF_eq (H : ℚ) (k : Int) (hk : hsvI H = k) : hsvF H = H / 360 * 6 - k := by
  unfold hsvF
  rw [hk]

theorem hsvToRgb_sec0 (H S V : ℚ) (hk : hsvI H = 0) :
    hsvToRgb H S V = some (jsRound (V / 100 * 255), jsRound (hsvT H S V * 255),
      jsRound (hsvP S V * 255)) := by
  unfold hsvToRgb; rw [hk]; rfl

theorem hsvToRgb_sec1 (H S V : ℚ) (hk : hsvI H = 1) :
    hsvToRgb H S V = some (jsRound (hsvQ H S V * 255), jsRound (V / 100 * 255),
      jsRound (hsvP S V * 255)) := by
  unfold hsvToRgb; rw [hk]; rfl

theorem hsvToRgb_sec2 (H S V : ℚ) (hk : hsvI H = 2) :
    hsvToRgb H S V = some (jsRound (hsvP S V * 255), jsRound (V / 100 * 255),
      jsRound (hsvT H S V * 255)) := by
  unfold hsvToRgb; rw [hk]; rfl

theorem hsvToRgb_sec3 (H S V : ℚ) (hk : hsvI H = 3) :
    hsvToRgb H S V = some (jsRound (hsvP S V * 255), jsRound (hsvQ H S V * 255),
      jsRound (V / 100 * 255)) := by
  unfold hsvToRgb; rw [hk]; rfl

theorem hsvToRgb_sec4 (H S V : ℚ) (hk : hsvI H = 4) :
    hsvToRgb H S V = some (jsRound (hsvT H S V * 255), jsRound (hsvP S V * 255),
      jsRound (V / 100 * 255)) := by
  unfold hsvToRgb; rw [hk]; rfl

theorem hsvToRgb_sec5 (H S V : ℚ) (hk : hsvI H = 5) :
    hsvToRgb H S V = some (jsRound (V / 100 * 255), jsRound (hsvP S V * 255),
      jsRound (hsvQ H S V * 255)) := by
  unfold hsvToRgb; rw [hk]; rfl

theorem chanV (R G B : ℚ) : rgbMax R G B * 100 / 100 * 255 = rgbMax R G B * 255 := by ring

theorem chanP (R G B : ℚ) (hmx : ¬(rgbMax R G B = 0)) :
    hsvP (rgbSat R G B * 100) (rgbMax R G B * 100) * 255 = rgbMin R G B * 255 := by
  unfold hsvP rgbSat rgbDelta
  rw [if_neg hmx]
  field_simp
  ring

theorem chanQ (H R G B : ℚ) (hmx : ¬(rgbMax R G B = 0)) :
    hsvQ H (rgbSat R G B * 100) (rgbMax R G B * 100) * 255
      = (rgbMax R G B - hsvF H * rgbDelta R G B) * 255 := by
  unfold hsvQ rgbSat
  rw [if_neg hmx]
  field_simp
  ring

theorem chanT (H R G B : ℚ) (hmx : ¬(rgbMax R G B = 0)) :
    hsvT H (rgbSat R G B * 100) (rgbMax R G B * 100) * 255
      = (rgbMax R G B - (1 - hsvF H) * rgbDelta R G B) * 255 := by
  unfold hsvT rgbSat
  rw [if_neg hmx]
  field_simp
  ring

theorem hueRaw_scale (R G B : ℚ) (hach : ¬(rgbMax R G B = rgbMin R G B)) :
    rgbHueRaw R G B * 360 / 360 * 6 = rgbHue6 R G B := by
  unfold rgbHueRaw
  rw [if_neg hach]
  ring

set_option maxHeartbeats 1000000 in
theorem roundTrip_exact (R G B : ℚ) (hR0 : 0 ≤ R) (hR : R ≤ 255) (hG0 : 0 ≤ G)
    (hG : G ≤ 255) (hB0 : 0 ≤ B) (hB : B ≤ 255) :
    hsvToRgb (rgbToHsv R G B).1 (rgbToHsv R G B).2.1 (rgbToHsv R G B).2.2
      = some (jsRound R, jsRound G, jsRound B) := by
  show hsvToRgb (rgbHueRaw R G B * 360) (rgbSat R G B * 100) (rgbMax R G B * 100)
      = some (jsRound R, jsRound G, jsRound B)
  have hx0 : (0:ℚ) ≤ R / 255 := by positivity
  have hy0 : (0:ℚ) ≤ G / 255 := by positivity
  have hz0 : (0:ℚ) ≤ B / 255 := by positivity
  have hxle : R / 255 ≤ rgbMax R G B := le_max_left _ _
  have hyle : G / 255 ≤ rgbMax R G B := le_trans (le_max_left _ _) (le_max_right _ _)
  have hzle : B / 255 ≤ rgbMax R G B := le_trans (le_max_right _ _) (le_max_right _ _)
  have hxge : rgbMin R G B ≤ R / 255 := min_le_left _ _
  have hyge : rgbMin R G B ≤ G / 255 := le_trans (min_le_right _ _) (min_le_left _ _)
  have hzge : rgbMin R G B ≤ B / 255 := le_trans (min_le_right _ _) (min_le_right _ _)
  by_cases hach : rgbMax R G B = rgbMin R G B
  · -- achromatic: all channels equal
    have h1 : rgbMax R G B ≤ R / 255 := by rw [hach]; exact hxge
    have h2 : rgbMax R G B ≤ G / 255 := by rw [hach]; exact hyge
    have h3 : rgbMax R G B ≤ B / 255 := by rw [hach]; exact hzge
    have hxeq : R / 255 = rgbMax R G B := le_antisymm hxle h1
    have hyeq : G / 255 = rgbMax R G B := le_antisymm hyle h2
    have hzeq : B / 255 = rgbMax R G B := le_antisymm hzle h3
    have hhue : rgbHueRaw R G B = 0 := by unfold rgbHueRaw; rw [if_pos hach]
    have hsat : rgbSat R G B = 0 := by
      unfold rgbSat
      by_cases hmx0 : rgbMax R G B = 0
      · rw [if_pos hmx0]
      · rw [if_neg hmx0]
        unfold rgbDelta
        rw [hach]
        simp
    rw [hhue, hsat]
    have hi : hsvI (0 * 360) = 0 := by unfold hsvI; norm_num
    rw [hsvToRgb_sec0 _ _ _ hi]
    have hf : hsvF (0 * 360) = 0 := by unfold hsvF; rw [hi]; norm_num
    have e1 : rgbMax R G B * 100 / 100 * 255 = R := by rw [← hxeq]; ring
    have e2 : hsvT (0 * 360) (0 * 100) (rgbMax R G B * 100) * 255 = G := by
      unfold hsvT
      rw [hf, ← hyeq]
      ring
    have e3 : hsvP (0 * 100) (rgbMax R G B * 100) * 255 = B := by
      unfold hsvP
      rw [← hzeq]
      ring
    rw [e1, e2, e3]
  · -- chromatic
    have hlt : rgbMin R G B < rgbMax R G B :=
      lt_of_le_of_ne (le_trans hxge hxle) (fun h => hach h.symm)
    have hdpos : 0 < rgbDelta R G B := sub_pos.mpr hlt
    have hd0 : rgbDelta R G B ≠ 0 := ne_of_gt hdpos
    have hmn0 : (0:ℚ) ≤ rgbMin R G B := le_min hx0 (le_min hy0 hz0)
    have hmxpos : (0:ℚ) < rgbMax R G B := lt_of_le_of_lt hmn0 hlt
    have hmx0 : ¬(rgbMax R G B = 0) := fun h => by simp [h] at hmxpos
    by_cases hmr : rgbMax R G B = R / 255
    · by_cases hgb : G / 255 < B / 255
      · -- max = r, g < b: sector 5, min = g
        have hmn : rgbMin R G B = G / 255 := by
          unfold rgbMin
          rw [min_eq_left (le_of_lt hgb), min_eq_right (by rw [← hmr]; exact hyle)]
        have hdelta : rgbDelta R G B = R / 255 - G / 255 := by
          unfold rgbDelta; rw [hmr, hmn]
        have hhue6 : rgbHue6 R G B = (G / 255 - B / 255) / rgbDelta R G B + 6 := by
          unfold rgbHue6
          rw [if_pos hmr, if_pos hgb]
        have hX : rgbHueRaw R G B * 360 / 360 * 6
            = (G / 255 - B / 255) / rgbDelta R G B + 6 := by
          rw [hueRaw_scale R G B hach, hhue6]
        have hzx : B / 255 ≤ R / 255 := by rw [← hmr]; exact hzle
        have hb1 : -1 ≤ (G / 255 - B / 255) / rgbDelta R G B := by
          rw [le_div_iff hdpos, hdelta]
          linarith
        have hb2 : (G / 255 - B / 255) / rgbDelta R G B < 0 :=
          div_neg_of_neg_of_pos (by linarith) hdpos
        have hi : hsvI (rgbHueRaw R G B * 360) = 5 := by
          apply hsvI_eq
          · rw [hX]; push_cast; linarith
          · rw [hX]; push_cast; linarith
        have hf : hsvF (rgbHueRaw R G B * 360)
            = (G / 255 - B / 255) / rgbDelta R G B + 1 := by
          rw [hsvF_eq _ 5 hi, hX]
          push_cast
          ring
        have hfd : hsvF (rgbHueRaw R G B * 360) * rgbDelta R G B
            = (G / 255 - B / 255) + rgbDelta R G B := by
          rw [hf, add_mul, div_mul_cancel₀ _ hd0, one_mul]
        rw [hsvToRgb_sec5 _ _ _ hi]
        have e1 : rgbMax R G B * 100 / 100 * 255 = R := by rw [chanV, hmr]; ring
        have e2 : hsvP (rgbSat R G B * 100) (rgbMax R G B * 100) * 255 = G := by
          rw [chanP R G B hmx0, hmn]; ring
        have e3 : hsvQ (rgbHueRaw R G B * 360) (rgbSat R G B * 100) (rgbMax R G B * 100)
            * 255 = B := by
          rw [chanQ _ R G B hmx0]
          linear_combination (255:ℚ) * hmr - 255 * hfd - 255 * hdelta
        rw [e1, e2, e3]
      · -- max = r, b ≤ g: min = b
        have hbz : B / 255 ≤ G / 255 := not_lt.mp hgb
        have hmn : rgbMin R G B = B / 255 := by
          unfold rgbMin
          rw [min_eq_right hbz, min_eq_right (by rw [← hmr]; exact hzle)]
        have hdelta : rgbDelta R G B = R / 255 - B / 255 := by
          unfold rgbDelta; rw [hmr, hmn]
        have hhue6 : rgbHue6 R G B = (G / 255 - B / 255) / rgbDelta R G B := by
          unfold rgbHue6
          rw [if_pos hmr, if_neg hgb]
          ring
        have hX : rgbHueRaw R G B * 360 / 360 * 6
            = (G / 255 - B / 255) / rgbDelta R G B := by
          rw [hueRaw_scale R G B hach, hhue6]
        have hyx : G / 255 ≤ R / 255 := by rw [← hmr]; exact hyle
        by_cases hGR : G = R
        · -- g = r exactly: sector 1, f = 0
          have hX1 : (G / 255 - B / 255) / rgbDelta R G B = 1 := by
            rw [show G / 255 - B / 255 = rgbDelta R G B by rw [hdelta, hGR]]
            exact div_self hd0
          have hi : hsvI (rgbHueRaw R G B * 360) = 1 := by
            apply hsvI_eq
            · rw [hX, hX1]; norm_num
            · rw [hX, hX1]; norm_num
          have hf : hsvF (rgbHueRaw R G B * 360) = 0 := by
            rw [hsvF_eq _ 1 hi, hX, hX1]
            norm_num
          rw [hsvToRgb_sec1 _ _ _ hi]
          have e1 : hsvQ (rgbHueRaw R G B * 360) (rgbSat R G B * 100) (rgbMax R G B * 100)
              * 255 = R := by
            rw [chanQ _ R G B hmx0, hf]
            linear_combination (255:ℚ) * hmr
          have e2 : rgbMax R G B * 100 / 100 * 255 = G := by rw [chanV, hmr, hGR]; ring
          have e3 : hsvP (rgbSat R G B * 100) (rgbMax R G B * 100) * 255 = B := by
            rw [chanP R G B hmx0, hmn]; ring
          rw [e1, e2, e3]
        · -- g < r: sector 0
          have hylt : G / 255 < R / 255 :=
            lt_of_le_of_ne hyx (fun h => hGR (by field_simp at h; exact h))
          have hb1 : (0:ℚ) ≤ (G / 255 - B / 255) / rgbDelta R G B :=
            div_nonneg (by linarith) (le_of_lt hdpos)
          have hb2 : (G / 255 - B / 255) / rgbDelta R G B < 1 := by
            rw [div_lt_one hdpos, hdelta]
            linarith
          have hi : hsvI (rgbHueRaw R G B * 360) = 0 := by
            apply hsvI_eq
            · rw [hX]; push_cast; linarith
            · rw [hX]; push_cast; linarith
          have hf : hsvF (rgbHueRaw R G B * 360)
              = (G / 255 - B / 255) / rgbDelta R G B := by
            rw [hsvF_eq _ 0 hi, hX]
            push_cast
            ring
          have hfd : hsvF (rgbHueRaw R G B * 360) * rgbDelta R G B
              = G / 255 - B / 255 := by
            rw [hf, div_mul_cancel₀ _ hd0]
          rw [hsvToRgb_sec0 _ _ _ hi]
          have e1 : rgbMax R G B * 100 / 100 * 255 = R := by rw [chanV, hmr]; ring
          have e2 : hsvT (rgbHueRaw R G B * 360) (rgbSat R G B * 100) (rgbMax R G B * 100)
              * 255 = G := by
            rw [chanT _ R G B hmx0]
            linear_combination (255:ℚ) * hmr - 255 * hdelta + 255 * hfd
          have e3 : hsvP (rgbSat R G B * 100) (rgbMax R G B * 100) * 255 = B := by
            rw [chanP R G B hmx0, hmn]; ring
          rw [e1, e2, e3]
    · by_cases hmg : rgbMax R G B = G / 255
      · -- max = g
        have hxlt : R / 255 < rgbMax R G B :=
          lt_of_le_of_ne hxle (fun h => hmr h.symm)
        have hhue6 : rgbHue6 R G B = (B / 255 - R / 255) / rgbDelta R G B + 2 := by
          unfold rgbHue6
          rw [if_neg hmr, if_pos hmg]
        have hX : rgbHueRaw R G B * 360 / 360 * 6
            = (B / 255 - R / 255) / rgbDelta R G B + 2 := by
          rw [hueRaw_scale R G B hach, hhue6]
        by_cases hzx : R / 255 ≤ B / 255
        · -- min = r
          have hmn : rgbMin R G B = R / 255 := by
            unfold rgbMin
            rw [min_eq_left (le_min (by rw [← hmg]; exact le_of_lt hxlt) hzx)]
          have hdelta : rgbDelta R G B = G / 255 - R / 255 := by
            unfold rgbDelta; rw [hmg, hmn]
          by_cases hBG : B = G
          · -- b = g exactly: sector 3, f = 0
            have hX1 : (B / 255 - R / 255) / rgbDelta R G B = 1 := by
              rw [show B / 255 - R / 255 = rgbDelta R G B by rw [hdelta, hBG]]
              exact div_self hd0
            have hi : hsvI (rgbHueRaw R G B * 360) = 3 := by
              apply hsvI_eq
              · rw [hX, hX1]; norm_num
              · rw [hX, hX1]; norm_num
            have hf : hsvF (rgbHueRaw R G B * 360) = 0 := by
              rw [hsvF_eq _ 3 hi, hX, hX1]
              norm_num
            rw [hsvToRgb_sec3 _ _ _ hi]
            have e1 : hsvP (rgbSat R G B * 100) (rgbMax R G B * 100) * 255 = R := by
              rw [chanP R G B hmx0, hmn]; ring
            have e2 : hsvQ (rgbHueRaw R G B * 360) (rgbSat R G B * 100)
                (rgbMax R G B * 100) * 255 = G := by
              rw [chanQ _ R G B hmx0, hf]
              linear_combination (255:ℚ) * hmg
            have e3 : rgbMax R G B * 100 / 100 * 255 = B := by
              rw [chanV, hmg, hBG]; ring
            rw [e1, e2, e3]
          · -- b < g: sector 2
            have hzlt : B / 255 < G / 255 :=
              lt_of_le_of_ne (by rw [← hmg]; exact hzle)
                (fun h => hBG (by field_simp at h; exact h))
            have hb1 : (0:ℚ) ≤ (B / 255 - R / 255) / rgbDelta R G B :=
              div_nonneg (by linarith) (le_of_lt hdpos)
            have hb2 : (B / 255 - R / 255) / rgbDelta R G B < 1 := by
              rw [div_lt_one hdpos, hdelta]
              linarith
            have hi : hsvI (rgbHueRaw R G B * 360) = 2 := by
              apply hsvI_eq
              · rw [hX]; push_cast; linarith
              · rw [hX]; push_cast; linarith
            have hf : hsvF (rgbHueRaw R G B * 360)
                = (B / 255 - R / 255) / rgbDelta R G B := by
              rw [hsvF_eq _ 2 hi, hX]
              push_cast
              ring
            have hfd : hsvF (rgbHueRaw R G B * 360) * rgbDelta R G B
                = B / 255 - R / 255 := by
              rw [hf, div_mul_cancel₀ _ hd0]
            rw [hsvToRgb_sec2 _ _ _ hi]
            have e1 : hsvP (rgbSat R G B * 100) (rgbMax R G B * 100) * 255 = R := by
              rw [chanP R G B hmx0, hmn]; ring
            have e2 : rgbMax R G B * 100 / 100 * 255 = G := by rw [chanV, hmg]; ring
            have e3 : hsvT (rgbHueRaw R G B * 360) (rgbSat R G B * 100)
                (rgbMax R G B * 100) * 255 = B := by
              rw [chanT _ R G B hmx0]
              linear_combination (255:ℚ) * hmg - 255 * hdelta + 255 * hfd
            rw [e1, e2, e3]
        · -- b < r: min = b, sector 1
          have hzxlt : B / 255 < R / 255 := not_le.mp hzx
          have hinner : min (G / 255) (B / 255) = B / 255 :=
            min_eq_right (by rw [← hmg]; exact hzle)
          have hmn : rgbMin R G B = B / 255 := by
            unfold rgbMin
            rw [hinner, min_eq_right (le_of_lt hzxlt)]
          have hdelta : rgbDelta R G B = G / 255 - B / 255 := by
            unfold rgbDelta; rw [hmg, hmn]
          have hb1 : -1 < (B / 255 - R / 255) / rgbDelta R G B := by
            rw [lt_div_iff hdpos, hdelta]
            linarith
          have hb2 : (B / 255 - R / 255) / rgbDelta R G B < 0 :=
            div_neg_of_neg_of_pos (by linarith) hdpos
          have hi : hsvI (rgbHueRaw R G B * 360) = 1 := by
            apply hsvI_eq
            · rw [hX]; push_cast; linarith
            · rw [hX]; push_cast; linarith
          have hf : hsvF (rgbHueRaw R G B * 360)
              = (B / 255 - R / 255) / rgbDelta R G B + 1 := by
            rw [hsvF_eq _ 1 hi, hX]
            push_cast
            ring
          have hfd : hsvF (rgbHueRaw R G B * 360) * rgbDelta R G B
              = (B / 255 - R / 255) + rgbDelta R G B := by
            rw [hf, add_mul, div_mul_cancel₀ _ hd0, one_mul]
          rw [hsvToRgb_sec1 _ _ _ hi]
          have e1 : hsvQ (rgbHueRaw R G B * 360) (rgbSat R G B * 100)
              (rgbMax R G B * 100) * 255 = R := by
            rw [chanQ _ R G B hmx0]
            linear_combination (255:ℚ) * hmg - 255 * hfd - 255 * hdelta
          have e2 : rgbMax R G B * 100 / 100 * 255 = G := by rw [chanV, hmg]; ring
          have e3 : hsvP (rgbSat R G B * 100) (rgbMax R G B * 100) * 255 = B := by
            rw [chanP R G B hmx0, hmn]; ring
          rw [e1, e2, e3]
      · -- max = b
        have hmb : rgbMax R G B = B / 255 := by
          rcases max_choice (R / 255) (max (G / 255) (B / 255)) with h | h
          · exact absurd h hmr
          · rcases max_choice (G / 255) (B / 255) with h2 | h2
            · exact absurd (h.trans h2) hmg
            · exact h.trans h2
        have hxlt : R / 255 < rgbMax R G B :=
          lt_of_le_of_ne hxle (fun h => hmr h.symm)
        have hylt : G / 255 < rgbMax R G B :=
          lt_of_le_of_ne hyle (fun h => hmg h.symm)
        have hhue6 : rgbHue6 R G B = (R / 255 - G / 255) / rgbDelta R G B + 4 := by
          unfold rgbHue6
          rw [if_neg hmr, if_neg hmg]
        have hX : rgbHueRaw R G B * 360 / 360 * 6
            = (R / 255 - G / 255) / rgbDelta R G B + 4 := by
          rw [hueRaw_scale R G B hach, hhue6]
        by_cases hyx : G / 255 ≤ R / 255
        · -- min = g, sector 4
          have hinner : min (G / 255) (B / 255) = G / 255 :=
            min_eq_left (by rw [← hmb]; exact le_of_lt hylt)
          have hmn : rgbMin R G B = G / 255 := by
            unfold rgbMin
            rw [hinner, min_eq_right hyx]
          have hdelta : rgbDelta R G B = B / 255 - G / 255 := by
            unfold rgbDelta; rw [hmb, hmn]
          have hb1 : (0:ℚ) ≤ (R / 255 - G / 255) / rgbDelta R G B :=
            div_nonneg (by linarith) (le_of_lt hdpos)
          have hb2 : (R / 255 - G / 255) / rgbDelta R G B < 1 := by
            rw [div_lt_one hdpos, hdelta]
            rw [hmb] at hxlt
            linarith
          have hi : hsvI (rgbHueRaw R G B * 360) = 4 := by
            apply hsvI_eq
            · rw [hX]; push_cast; linarith
            · rw [hX]; push_cast; linarith
          have hf : hsvF (rgbHueRaw R G B * 360)
              = (R / 255 - G / 255) / rgbDelta R G B := by
            rw [hsvF_eq _ 4 hi, hX]
            push_cast
            ring
          have hfd : hsvF (rgbHueRaw R G B * 360) * rgbDelta R G B
              = R / 255 - G / 255 := by
            rw [hf, div_mul_cancel₀ _ hd0]
          rw [hsvToRgb_sec4 _ _ _ hi]
          have e1 : hsvT (rgbHueRaw R G B * 360) (rgbSat R G B * 100)
              (rgbMax R G B * 100) * 255 = R := by
            rw [chanT _ R G B hmx0]
            linear_combination (255:ℚ) * hmb - 255 * hdelta + 255 * hfd
          have e2 : hsvP (rgbSat R G B * 100) (rgbMax R G B * 100) * 255 = G := by
            rw [chanP R G B hmx0, hmn]; ring
          have e3 : rgbMax R G B * 100 / 100 * 255 = B := by rw [chanV, hmb]; ring
          rw [e1, e2, e3]
        · -- min = r, sector 3
          have hxy : R / 255 < G / 255 := not_le.mp hyx
          have hmn : rgbMin R G B = R / 255 := by
            unfold rgbMin
            rw [min_eq_left (le_min (le_of_lt hxy) (by rw [← hmb]; exact le_of_lt hxlt))]
          have hdelta : rgbDelta R G B = B / 255 - R / 255 := by
            unfold rgbDelta; rw [hmb, hmn]
          have hb1 : -1 < (R / 255 - G / 255) / rgbDelta R G B := by
            rw [lt_div_iff hdpos, hdelta]
            rw [hmb] at hylt
            linarith
          have hb2 : (R / 255 - G / 255) / rgbDelta R G B < 0 :=
            div_neg_of_neg_of_pos (by linarith) hdpos
          have hi : hsvI (rgbHueRaw R G B * 360) = 3 := by
            apply hsvI_eq
            · rw [hX]; push_cast; linarith
            · rw [hX]; push_cast; linarith
          have hf : hsvF (rgbHueRaw R G B * 360)
              = (R / 255 - G / 255) / rgbDelta R G B + 1 := by
            rw [hsvF_eq _ 3 hi, hX]
            push_cast
            ring
          have hfd : hsvF (rgbHueRaw R G B * 360) * rgbDelta R G B
              = (R / 255 - G / 255) + rgbDelta R G B := by
            rw [hf, add_mul, div_mul_cancel₀ _ hd0, one_mul]
          rw [hsvToRgb_sec3 _ _ _ hi]
          have e1 : hsvP (rgbSat R G B * 100) (rgbMax R G B * 100) * 255 = R := by
            rw [chanP R G B hmx0, hmn]; ring
          have e2 : hsvQ (rgbHueRaw R G B * 360) (rgbSat R G B * 100)
              (rgbMax R G B * 100) * 255 = G := by
            rw [chanQ _ R G B hmx0]
            linear_combination (255:ℚ) * hmb - 255 * hfd - 255 * hdelta
          have e3 : rgbMax R G B * 100 / 100 * 255 = B := by rw [chanV, hmb]; ring
          rw [e1, e2, e3]

theorem jsRound_natCast (n : ℕ) : jsRound ((n : ℚ)) = n := by
  unfold jsRound
  rw [Int.floor_eq_iff]
  constructor
  · push_cast; linarith
  · push_cast; linarith

/-- Claim C9: for every integer triple with channels in `[0, 255]`,
converting to HSV and back yields each channel within 1 of the original.
Over the exact rational model of the JS arithmetic the round trip is in
fact the identity, so the `±1` float-rounding tolerance holds a fortiori. -/
theorem color_C9_roundTrip :
    ∀ r g b : ℕ, r ≤ 255 → g ≤ 255 → b ≤ 255 →
      ∃ p : Int × Int × Int,
        hsvToRgb (rgbToHsv (r : ℚ) (g : ℚ) (b : ℚ)).1 (rgbToHsv (r : ℚ) (g : ℚ) (b : ℚ)).2.1
            (rgbToHsv (r : ℚ) (g : ℚ) (b : ℚ)).2.2 = some p
        ∧ (p.1 - (r : Int)).natAbs ≤ 1 ∧ (p.2.1 - (g : Int)).natAbs ≤ 1
        ∧ (p.2.2 - (b : Int)).natAbs ≤ 1 := by
  intro r g b hr hg hb
  refine ⟨((r : Int), (g : Int), (b : Int)), ?_, by simp, by simp, by simp⟩
  rw [roundTrip_exact (r : ℚ) (g : ℚ) (b : ℚ) (by positivity) (by exact_mod_cast hr)
    (by positivity) (by exact_mod_cast hg) (by positivity) (by exact_mod_cast hb)]
  rw [jsRound_natCast, jsRound_natCast, jsRound_natCast]

/-- Witness for C9 at the chromatic triple `(12, 200, 77)`. -/
theorem color_C9_witness :
    (12 ≤ 255 ∧ 200 ≤ 255 ∧ 77 ≤ 255)
    ∧ ∃ p : Int × Int × Int,
        hsvToRgb (rgbToHsv ((12 : ℕ) : ℚ) ((200 : ℕ) : ℚ) ((77 : ℕ) : ℚ)).1
            (rgbToHsv ((12 : ℕ) : ℚ) ((200 : ℕ) : ℚ) ((77 : ℕ) : ℚ)).2.1
            (rgbToHsv ((12 : ℕ) : ℚ) ((200 : ℕ) : ℚ) ((77 : ℕ) : ℚ)).2.2 = some p
        ∧ (p.1 - ((12 : ℕ) : Int)).natAbs ≤ 1 ∧ (p.2.1 - ((200 : ℕ) : Int)).natAbs ≤ 1
        ∧ (p.2.2 - ((77 : ℕ) : Int)).natAbs ≤ 1 :=
  ⟨⟨by omega, by omega, by omega⟩,
   color_C9_roundTrip 12 200 77 (by omega) (by omega) (by omega)⟩

end IPort
